import Mathlib

/-!
Verification of the file-hosting gateway worker (`src/_worker.js`).

A shallow embedding of the worker's data model and handlers.  The relational
store (D1) is modelled as lists of rows kept in insertion (rowid) order; an
unordered `SELECT ... LIMIT 1` / `.first()` is modelled as `List.find?`
(first row in table order), and `ORDER BY created_at DESC LIMIT 1` as the
row with the greatest `created_at` (first such row on ties).  The R2 bucket
is a key-value list, the Telegram storage channel a list of message ids, and
the in-memory `fileCache` a key-value list with timestamps.  Outbound
chat-platform calls and page rendering (out of scope per the spec) are
recorded as effects; the bodies of purely informational messages and menus
are abstracted, while every state change and every storage-backend write is
translated from the source.
-/

namespace Worker

/-- The name of the default category (`'默认分类'` in the source). -/
def defaultCategoryName : String := "默认分类"

/-- A row of the `categories` table. -/
structure Category where
  id : Nat
  name : String
  created_at : Nat
deriving Repr, DecidableEq

/-- A row of the `user_settings` table. -/
structure UserSetting where
  chat_id : String
  storage_type : String
  current_category_id : Option Nat
  waiting_for : Option String
  editing_file_id : Option Nat
deriving Repr, DecidableEq

/-- A row of the `files` table. -/
structure FileRow where
  id : Nat
  url : String
  fileId : Option String
  message_id : Int
  created_at : Nat
  file_name : Option String
  file_size : Nat
  mime_type : String
  storage_type : String
  category_id : Option Nat
  chat_id : String
  remark : Option String
deriving Repr, DecidableEq

/-- The three tables plus AUTOINCREMENT counters. -/
structure Db where
  categories : List Category
  userSettings : List UserSetting
  files : List FileRow
  nextCategoryId : Nat
  nextFileId : Nat
deriving Repr, DecidableEq

/-- An object stored in the R2 bucket; contents are opaque tokens. -/
structure R2Object where
  contentType : String
  content : Nat
deriving Repr, DecidableEq

/-- A resolved byte stream: either a bucket object or a Telegram-side
stream re-resolved through `getFile` (whose short-lived URL is fetched per
access). -/
inductive StoredResp where
  | fromBucket (key : String) (content : Nat)
  | fromTelegram (tgFileId : String)
deriving Repr, DecidableEq

/-- A memoized file-serving response (`config.fileCache` entry). -/
structure CachedFile where
  resp : StoredResp
  timestamp : Nat
deriving Repr, DecidableEq

/-- Outbound interactions recorded by the handlers.  The constructors that
carry structured data (`sendCategoryList`, `sendR2Stats`, `sendRecentFiles`,
`sendFileButtons`) stand for informational messages whose HTML rendering is
out of scope; they record exactly the data the source interpolates. -/
inductive Effect where
  | sendMessage (chatId : String) (text : String)
  | sendPanel (chatId : String)
  | answerCallback
  | bucketPut (key : String)
  | bucketDelete (key : String)
  | tgStoreSend (fileName : String)
  | tgStoreDeleteMessage (messageId : Int)
  | editProcessingMessage (text : String)
  | deleteProcessingMessage
  | sendQrCode (chatId : String) (url : String)
  | sendCategoryList (chatId : String) (names : List String)
  | sendR2Stats (chatId : String) (totalFiles : Nat) (totalSize : Nat)
  | sendRecentFiles (chatId : String) (urls : List String)
  | sendFileButtons (chatId : String) (fileIds : List Nat)
deriving Repr, DecidableEq

/-- A `config.buttonCache` entry (what `handleCallbackQuery` memoizes per
`button:<chat>:<data>` key): the optional plain reply, whether a panel is
re-sent, and the optional keyboard reply, stored as the effects replayed on
a cache hit. -/
structure ButtonEntry (ε : Type) where
  timestamp : Nat
  response : Option ε
  panelFlag : Bool
  reply : Option ε
deriving Repr, DecidableEq

/-- The mutable world: database, the two storage backends, the response
cache and the button cache. -/
structure World where
  db : Db
  bucket : List (String × R2Object)
  tgStore : List Int
  nextTgMsgId : Nat
  fileCache : List (String × CachedFile)
  buttonCache : List (String × ButtonEntry Effect)
deriving Repr, DecidableEq

/-- The request-scoped configuration built in `fetch` (worker entry). -/
structure Config where
  domain : String
  maxSizeMB : Nat
  fileCacheTTL : Nat
  buttonCacheTTL : Nat
  tgChatId : List String
  tgBotToken : String
  tgStorageChatId : String
  hasBucket : Bool
deriving Repr, DecidableEq

/-- Model of `str.trim()` (structural, so that concrete runs reduce in the kernel). -/
def jsTrim (s : String) : String :=
  String.mk (((s.data.dropWhile Char.isWhitespace).reverse.dropWhile
    Char.isWhitespace).reverse)

/-- Model of `str.split(sep)` on a single-character separator, over the char list. -/
def splitCharsOn (sep : Char) : List Char → List (List Char)
  | [] => [[]]
  | c :: rest =>
    let r := splitCharsOn sep rest
    if c = sep then [] :: r
    else
      match r with
      | [] => [[c]]
      | g :: gs => (c :: g) :: gs

/-- Model of `str.split(sep)` on a single-character separator. -/
def splitOnChar (sep : Char) (s : String) : List String :=
  (splitCharsOn sep s.data).map String.mk

/-- Is the first list a prefix of the second? -/
def startsWithAux : List Char → List Char → Bool
  | [], _ => true
  | _ :: _, [] => false
  | p :: ps, c :: cs => p = c && startsWithAux ps cs

/-- Model of `str.startsWith(pre)` (structural). -/
def strStartsWith (s pre : String) : Bool := startsWithAux pre.data s.data

/-- Model of `str.endsWith(suf)` (structural). -/
def strEndsWith (s suf : String) : Bool := startsWithAux suf.data.reverse s.data.reverse

/-- Model of `str.toLowerCase()` (structural). -/
def lowerStr (s : String) : String := String.mk (s.data.map Char.toLower)

/-- The numeric value of a decimal digit. -/
def digitVal? (c : Char) : Option Nat :=
  if c.isDigit then some (c.toNat - 48) else none

/-- Parse a nonnegative decimal integer (structural `String.toNat?`). -/
def strToNat? (s : String) : Option Nat :=
  if s.data = [] then none
  else
    s.data.foldl
      (fun acc c =>
        match acc, digitVal? c with
        | some n, some d => some (n * 10 + d)
        | _, _ => none)
      (some 0)

/-- Model of `getFileName(url)`: the last `/`-separated segment of the url
(the JS version goes through `new URL(url).pathname`, which for the
query-free absolute URLs this system produces is the same thing, with the
same `url.split('/').pop()` fallback for non-URL strings). -/
def getFileName (url : String) : String :=
  (splitOnChar '/' url).getLastD url

/-- Model of `name.split('.').pop()`: the extension (or the whole string if no dot). -/
def lastExt (s : String) : String :=
  (splitOnChar '.' s).getLastD s

/-- JS truthiness of an optional string (absent and `''` are falsy). -/
def strTruthy : Option String → Bool
  | some s => s ≠ ""
  | none => false

/-- Model of `input.startsWith('http://') || input.startsWith('https://')`. -/
def isHttpUrl (s : String) : Bool :=
  strStartsWith s "http://" || strStartsWith s "https://"

/-! ## R2 bucket operations -/

/-- Model of `bucket.get(key)`. -/
def bucketGet (w : World) (key : String) : Option R2Object :=
  (w.bucket.find? (fun kv => kv.1 = key)).map (fun kv => kv.2)

/-- Model of `bucket.put(key, data, {httpMetadata})` (overwrites an existing key). -/
def bucketPutOp (w : World) (key : String) (obj : R2Object) : World :=
  { w with bucket := w.bucket.filter (fun kv => kv.1 ≠ key) ++ [(key, obj)] }

/-- Model of `bucket.delete(key)`. -/
def bucketDeleteOp (w : World) (key : String) : World :=
  { w with bucket := w.bucket.filter (fun kv => kv.1 ≠ key) }

/-! ## Row-level SQL helpers -/

/-- Model of `SELECT * FROM files WHERE url = ? LIMIT 1` (first row in table order). -/
def findFileByUrl (files : List FileRow) (url : String) : Option FileRow :=
  files.find? (fun f => f.url = url)

/-- Model of `SELECT * FROM files WHERE fileId = ? LIMIT 1`. -/
def findFileByFileId (files : List FileRow) (fid : String) : Option FileRow :=
  files.find? (fun f => f.fileId = some fid)

/-- Model of `SELECT * FROM files WHERE file_name = ? LIMIT 1`. -/
def findFileByName (files : List FileRow) (name : String) : Option FileRow :=
  files.find? (fun f => f.file_name = some name)

/-- Model of `SELECT * FROM files WHERE id = ? LIMIT 1`. -/
def findFileById (files : List FileRow) (i : Nat) : Option FileRow :=
  files.find? (fun f => f.id = i)

/-- The accumulator of the `ORDER BY created_at DESC LIMIT 1` model: keep
the row with the greater `created_at` (first one wins ties). -/
def pickLatest (acc : Option FileRow) (f : FileRow) : Option FileRow :=
  match acc with
  | none => some f
  | some g => if g.created_at < f.created_at then some f else some g

/-- Model of `... ORDER BY created_at DESC LIMIT 1` over rows satisfying `p`. -/
def findLatest (files : List FileRow) (p : FileRow → Bool) : Option FileRow :=
  (files.filter p).foldl pickLatest none

/-- Model of `UPDATE files SET ... WHERE id = ?`. -/
def updateFileById (db : Db) (i : Nat) (g : FileRow → FileRow) : Db :=
  { db with files := db.files.map (fun f => if f.id = i then g f else f) }

/-- Model of `DELETE FROM files WHERE id = ?`. -/
def deleteFileById (db : Db) (i : Nat) : Db :=
  { db with files := db.files.filter (fun f => f.id ≠ i) }

/-- Model of `UPDATE user_settings SET ... WHERE chat_id = ?`. -/
def updateUserSetting (db : Db) (chatId : String) (g : UserSetting → UserSetting) : Db :=
  { db with userSettings :=
      db.userSettings.map (fun u => if u.chat_id = chatId then g u else u) }

/-- Model of `SELECT * FROM user_settings WHERE chat_id = ?`. -/
def findUserSetting (db : Db) (chatId : String) : Option UserSetting :=
  db.userSettings.find? (fun u => u.chat_id = chatId)

/-- Model of `SELECT id FROM categories WHERE name = ?`. -/
def findCategoryByName (cats : List Category) (name : String) : Option Category :=
  cats.find? (fun c => c.name = name)

/-- Model of `SELECT ... FROM categories WHERE id = ?`. -/
def findCategoryById (cats : List Category) (i : Nat) : Option Category :=
  cats.find? (fun c => c.id = i)

/-! ## Schema Manager (`recreateAllTables` / `validateDatabaseStructure`)

The structural state of the database: for each table either `none` (the
table does not exist) or the list of its column names.  Row data lives in a
`Db` alongside.  All expected column names are lowercase, matching the
source's case-insensitive comparison. -/

/-- Expected columns of `categories` (`tableStructures` in the source). -/
def categoriesCols : List String := ["id", "name", "created_at"]

/-- Expected columns of `user_settings`. -/
def userSettingsCols : List String :=
  ["id", "chat_id", "storage_type", "current_category_id", "waiting_for", "editing_file_id"]

/-- Expected columns of `files`. -/
def filesCols : List String :=
  ["id", "url", "fileId", "message_id", "created_at", "file_name", "file_size",
   "mime_type", "storage_type", "category_id", "chat_id", "remark"]

/-- The structure-plus-data state the Schema Manager operates on. -/
structure SchemaState where
  categoriesTbl : Option (List String)
  userSettingsTbl : Option (List String)
  filesTbl : Option (List String)
  db : Db
deriving Repr, DecidableEq

/-- Model of `ALTER TABLE ... ADD COLUMN` for every expected column not present
(tolerating already-present columns). -/
def addMissingCols (expected actual : List String) : List String :=
  actual ++ expected.filter (fun c => !(actual.contains c))

/-- The `CREATE TABLE IF NOT EXISTS` statements of `recreateAllTables`:
missing tables are created with the full column set, existing tables are
left untouched. -/
def createMissingTables (s : SchemaState) : SchemaState :=
  { s with
    categoriesTbl := some (s.categoriesTbl.getD categoriesCols)
    userSettingsTbl := some (s.userSettingsTbl.getD userSettingsCols)
    filesTbl := some (s.filesTbl.getD filesCols) }

/-- Model of `INSERT OR IGNORE INTO categories (name) VALUES ('默认分类')`. -/
def insertDefaultIgnore (now : Nat) (s : SchemaState) : SchemaState :=
  if (s.db.categories.any (fun c => c.name = defaultCategoryName)) then s
  else
    { s with db :=
        { s.db with
          categories := s.db.categories ++
            [{ id := s.db.nextCategoryId, name := defaultCategoryName, created_at := now }]
          nextCategoryId := s.db.nextCategoryId + 1 } }

/-- Model of `recreateAllTables`: `CREATE TABLE IF NOT EXISTS` for the three tables
followed by `INSERT OR IGNORE` of the default category. -/
def recreateAllTables (now : Nat) (s : SchemaState) : SchemaState :=
  insertDefaultIgnore now (createMissingTables s)

/-- Does a state have all three tables? -/
def tablesPresent (s : SchemaState) : Bool :=
  s.categoriesTbl.isSome && s.userSettingsTbl.isSome && s.filesTbl.isSome

/-- The per-table column-repair loop of `validateDatabaseStructure`. -/
def repairColumns (s : SchemaState) : SchemaState :=
  { s with
    categoriesTbl := (s.categoriesTbl.map (addMissingCols categoriesCols))
    userSettingsTbl := (s.userSettingsTbl.map (addMissingCols userSettingsCols))
    filesTbl := (s.filesTbl.map (addMissingCols filesCols)) }

/-- The default-category phase of `validateDatabaseStructure`: if no
category named `默认分类` exists, insert one and re-parent
`category_id IS NULL` files and `current_category_id IS NULL` settings
to it. -/
def ensureDefaultCategory (now : Nat) (s : SchemaState) : SchemaState :=
  if (s.db.categories.any (fun c => c.name = defaultCategoryName)) then s
  else
    let newId := s.db.nextCategoryId
    { s with db :=
        { s.db with
          categories := s.db.categories ++
            [{ id := newId, name := defaultCategoryName, created_at := now }]
          nextCategoryId := newId + 1
          files := s.db.files.map (fun f =>
            if f.category_id = none then { f with category_id := some newId } else f)
          userSettings := s.db.userSettings.map (fun u =>
            if u.current_category_id = none then
              { u with current_category_id := some newId } else u) } }

/-- Model of `validateDatabaseStructure` (happy path): if any table is missing,
rebuild the missing tables and return immediately (skipping the column and
default-category phases, exactly as the early `return true` in the source);
otherwise add missing columns and then ensure the default category.
`initDatabase` reduces to this on the happy path, so this is the
`ensureSchema()` of the spec. -/
def ensureSchema (now : Nat) (s : SchemaState) : SchemaState :=
  if !(tablesPresent s) then recreateAllTables now s
  else ensureDefaultCategory now (repairColumns s)

/-- Number of categories named `默认分类`. -/
def defaultCategoryCount (s : SchemaState) : Nat :=
  (s.db.categories.filter (fun c => c.name = defaultCategoryName)).length

/-- An empty database. -/
def emptyDb : Db :=
  { categories := [], userSettings := [], files := [], nextCategoryId := 1, nextFileId := 1 }

/-- A fresh deployment: none of the three tables exists yet. -/
def schemaStateEmpty : SchemaState :=
  { categoriesTbl := none, userSettingsTbl := none, filesTbl := none, db := emptyDb }

/-- A database state whose `categories` table exists but lacks the
`created_at` column while the `files` table is missing entirely. -/
def schemaStateMixed : SchemaState :=
  { categoriesTbl := some ["id", "name"]
    userSettingsTbl := some userSettingsCols
    filesTbl := none
    db := emptyDb }

/-! ## HTTP admin handlers

Each handler is a pure function of the request, the world and the current
time, returning a response, the new world and the recorded effects.
Authentication wrappers are elided (the embedded handlers model the
authenticated path), and external calls are taken on their happy path; a
`meta.last_row_id` is always available after an INSERT in this model. -/

/-- A `{status, msg}` JSON response. -/
structure ApiResp where
  status : Nat
  msg : String
deriving Repr, DecidableEq

/-- Model of `handleDeleteCategoryRequest` (`POST /delete-category {id}`).  `none`
stands for an absent/NaN id and `some 0` for the JS-falsy id `0`; both are
rejected as invalid. -/
def handleDeleteCategoryRequest (now : Nat) (db : Db) (idOpt : Option Nat) : ApiResp × Db :=
  match idOpt with
  | none => ({ status := 0, msg := "分类ID无效" }, db)
  | some i =>
    if i = 0 then ({ status := 0, msg := "分类ID无效" }, db)
    else if (db.categories.find? (fun c => c.id = i && c.name = defaultCategoryName)).isSome then
      ({ status := 0, msg := "默认分类不能删除" }, db)
    else
      match findCategoryById db.categories i with
      | none => ({ status := 0, msg := "分类不存在" }, db)
      | some cat =>
        let p : Nat × Db :=
          match findCategoryByName db.categories defaultCategoryName with
          | some d => (d.id, db)
          | none =>
            (db.nextCategoryId,
             { db with
               categories := db.categories ++
                 [{ id := db.nextCategoryId, name := defaultCategoryName, created_at := now }]
               nextCategoryId := db.nextCategoryId + 1 })
        let dId := p.1
        let db1 := p.2
        let files2 := db1.files.map (fun f =>
          if f.category_id = some i then { f with category_id := some dId } else f)
        let us2 := db1.userSettings.map (fun u =>
          if u.current_category_id = some i then
            { u with current_category_id := some dId } else u)
        let db2 := { db1 with files := files2, userSettings := us2 }
        let db3 := { db2 with categories := db2.categories.filter (fun c => c.id ≠ i) }
        ({ status := 1, msg := "分类 \"" ++ cat.name ++ "\" 删除成功，相关文件已移至默认分类" }, db3)

/-- One `UPDATE files SET remark = ? WHERE url = ?` statement. -/
def updateRemarkStmt (remark : String) (db : Db) (url : String) : Db :=
  { db with files := db.files.map (fun f =>
      if f.url = url then { f with remark := some remark } else f) }

/-- Model of `handleUpdateRemarkRequest` (`POST /update-remark {urls, remark}`): one
UPDATE per url submitted via `database.batch`; the response carries no
per-item information. -/
def handleUpdateRemarkRequest (db : Db) (urls : List String) (remark : String) :
    ApiResp × Db :=
  if urls.isEmpty then ({ status := 0, msg := "无效的文件列表" }, db)
  else ({ status := 1, msg := "备注更新成功" }, urls.foldl (updateRemarkStmt remark) db)

/-- One `UPDATE files SET category_id = ? WHERE url = ?` statement. -/
def changeCategoryStmt (categoryId : Option Nat) (db : Db) (url : String) : Db :=
  { db with files := db.files.map (fun f =>
      if f.url = url then { f with category_id := categoryId } else f) }

/-- Model of `handleChangeCategoryRequest` (`POST /change-category {urls, categoryId}`):
one UPDATE per url via `database.batch`; no per-item reporting.  A JS-falsy
`categoryId` is stored as NULL. -/
def handleChangeCategoryRequest (db : Db) (urls : List String)
    (categoryId : Option Nat) : ApiResp × Db :=
  if urls.isEmpty then ({ status := 0, msg := "无效的请求参数" }, db)
  else
    let newId : Option Nat := match categoryId with
      | some c => if c = 0 then none else some c
      | none => none
    ({ status := 1, msg := "分类更换成功" }, urls.foldl (changeCategoryStmt newId) db)

/-- The response of `handleDeleteMultipleRequest`, with its per-item
success/failure details. -/
structure DeleteMultipleResp where
  status : Nat
  successList : List String
  failedList : List (String × String)
deriving Repr, DecidableEq

/-- One iteration of the `handleDeleteMultipleRequest` loop. -/
def deleteMultipleStep (cfg : Config) (st : World × List Effect × DeleteMultipleResp)
    (url : String) : World × List Effect × DeleteMultipleResp :=
  let w := st.1
  let effs := st.2.1
  let acc := st.2.2
  let fileName := (splitOnChar '/' url).getLastD url
  let byUrl := findFileByUrl w.db.files url
  let file := match byUrl with
    | some f => some f
    | none => if fileName ≠ "" then findFileByFileId w.db.files fileName else none
  match file with
  | some f =>
    let wd : World × List Effect :=
      if f.storage_type = "telegram" && f.message_id ≠ 0 then
        ({ w with tgStore := w.tgStore.filter (fun m => m ≠ f.message_id) },
         effs ++ [Effect.tgStoreDeleteMessage f.message_id])
      else if f.storage_type = "r2" && f.fileId.isSome && cfg.hasBucket then
        match f.fileId with
        | some k => (bucketDeleteOp w k, effs ++ [Effect.bucketDelete k])
        | none => (w, effs)
      else (w, effs)
    let w2 := { wd.1 with db := deleteFileById wd.1.db f.id }
    (w2, wd.2, { acc with successList := acc.successList ++ [url] })
  | none =>
    (w, effs, { acc with failedList := acc.failedList ++ [(url, "未找到文件记录")] })

/-- Model of `handleDeleteMultipleRequest` (`POST /delete-multiple {urls}`): an
independent per-row loop; each url is resolved (url match, then raw
backend-reference match on the url basename), its backend copy deleted
best-effort, its row deleted, and the outcome recorded per item.  There is
no `fileCache` invalidation on this path. -/
def handleDeleteMultipleRequest (cfg : Config) (w : World) (urls : List String) :
    DeleteMultipleResp × World × List Effect :=
  if urls.isEmpty then
    ({ status := 0, successList := [], failedList := [] }, w, [])
  else
    let st := urls.foldl (deleteMultipleStep cfg)
      (w, ([] : List Effect), { status := 1, successList := [], failedList := [] })
    (st.2.2, st.1, st.2.1)

/-- The response of `handleUpdateSuffixRequest`. -/
structure UpdateSuffixResp where
  status : Nat
  msg : String
  newUrl : Option String
deriving Repr, DecidableEq

/-- Model of `handleUpdateSuffixRequest` (`POST /update-suffix {url, suffix}`): the
admin rename.  Resolution is url match then raw-reference match on the url
basename; a conflicting `fileId` or `url` on a different row rejects the
request before any storage write or row update; otherwise the row's
`(fileId,) url, file_name` are updated together, with a copy+delete in the
bucket when the stored object exists.  No `fileCache` invalidation. -/
def handleUpdateSuffixRequest (cfg : Config) (w : World) (url suffix : String) :
    UpdateSuffixResp × World × List Effect :=
  if url = "" || suffix = "" then
    ({ status := 0, msg := "文件链接和新名称不能为空", newUrl := none }, w, [])
  else
    let originalFileName := getFileName url
    let rec? := match findFileByUrl w.db.files url with
      | some r => some r
      | none => findFileByFileId w.db.files originalFileName
    match rec? with
    | none => ({ status := 0, msg := "未找到对应的文件记录", newUrl := none }, w, [])
    | some fileRecord =>
      let fileExt := lastExt originalFileName
      let newFileName := suffix ++ "." ++ fileExt
      let fileUrl := "https://" ++ cfg.domain ++ "/" ++ newFileName
      if (w.db.files.any (fun f => f.fileId = some newFileName && f.id ≠ fileRecord.id)) then
        ({ status := 0, msg := "文件名已存在，无法修改", newUrl := none }, w, [])
      else if (w.db.files.any (fun f => f.url = fileUrl && f.id ≠ fileRecord.id)) then
        ({ status := 0, msg := "该URL已被使用，请尝试其他名称", newUrl := none }, w, [])
      else
        let out : World × List Effect :=
          if fileRecord.storage_type = "telegram" then
            ({ w with db := updateFileById w.db fileRecord.id (fun f =>
                { f with url := fileUrl, file_name := some newFileName }) }, [])
          else if cfg.hasBucket then
            let fid := fileRecord.fileId.getD originalFileName
            match bucketGet w fid with
            | some obj =>
              let w1 := bucketPutOp w newFileName obj
              let w2 := bucketDeleteOp w1 fid
              ({ w2 with db := updateFileById w2.db fileRecord.id (fun f =>
                  { f with fileId := some newFileName, url := fileUrl,
                           file_name := some newFileName }) },
               [Effect.bucketPut newFileName, Effect.bucketDelete fid])
            | none =>
              ({ w with db := updateFileById w.db fileRecord.id (fun f =>
                  { f with url := fileUrl, file_name := some newFileName }) }, [])
          else
            ({ w with db := updateFileById w.db fileRecord.id (fun f =>
                { f with url := fileUrl, file_name := some newFileName }) }, [])
        ({ status := 1, msg := "重命名成功", newUrl := some fileUrl }, out.1, out.2)

/-- Model of `handleDeleteRequest` (`POST /delete {id|fileId}`): resolution is
url match (when `id` starts with `http`), else numeric-id match, then
raw-reference match on `fileId`; the bucket copy is deleted for r2 rows and
the row removed.  There is no `fileCache` invalidation on this path. -/
def handleDeleteRequest (cfg : Config) (w : World) (idArg fileIdArg : Option String) :
    ApiResp × World × List Effect :=
  if !(strTruthy idArg) && !(strTruthy fileIdArg) then
    ({ status := 0, msg := "缺少文件标识信息" }, w, [])
  else
    let byId : Option FileRow := match idArg with
      | some idv =>
        if idv = "" then none
        else if strStartsWith idv "http" then findFileByUrl w.db.files idv
        else match strToNat? idv with
          | some n => findFileById w.db.files n
          | none => none
      | none => none
    let file := match byId with
      | some f => some f
      | none => match fileIdArg with
        | some fv => if fv ≠ "" then findFileByFileId w.db.files fv else none
        | none => none
    match file with
    | none => ({ status := 0, msg := "文件不存在" }, w, [])
    | some f =>
      let wd : World × List Effect :=
        if f.storage_type = "r2" && cfg.hasBucket then
          match f.fileId with
          | some k => (bucketDeleteOp w k, [Effect.bucketDelete k])
          | none => (w, [])
        else (w, [])
      ({ status := 1, msg := "删除成功" },
       { wd.1 with db := deleteFileById wd.1.db f.id }, wd.2)

/-! ## Public file serving (`handleFileRequest`) -/

/-- The outcome of `handleFileRequest`. -/
inductive ServeOutcome where
  | ok (resp : StoredResp) (fromCache : Bool)
  | notFound
  | redirect (url : String)
  | errMissingFileId
deriving Repr, DecidableEq

/-- Model of `cacheAndReturnResponse`: memoize the resolved response under
`file:<path>` (overwriting any previous entry) and return it. -/
def cacheAndReturn (w : World) (now : Nat) (cacheKey : String) (resp : StoredResp) :
    ServeOutcome × World :=
  (ServeOutcome.ok resp false,
   { w with fileCache := w.fileCache.filter (fun kv => kv.1 ≠ cacheKey) ++
       [(cacheKey, { resp := resp, timestamp := now })] })

/-- The database lookup chain of `handleFileRequest`: exact url match
(`https://<domain>/<path>`), then raw backend-reference (`fileId`) match on
the path, then `file_name` match on the path's basename, each returning the
first row in table order. -/
def resolveDbFile (files : List FileRow) (domain path : String) : Option FileRow :=
  let urlPattern := "https://" ++ domain ++ "/" ++ path
  match findFileByUrl files urlPattern with
  | some f => some f
  | none =>
    match findFileByFileId files path with
    | some f => some f
    | none => findFileByName files ((splitOnChar '/' path).getLastD path)

/-- The resolution-and-stream part of `handleFileRequest`, after the cache
probe: direct bucket hit on the raw path, then the database lookup chain
url → raw reference → file name, then the storage-type-specific stream
(Telegram fetches are taken on their happy path). -/
def serveResolved (cfg : Config) (w : World) (now : Nat) (path : String) :
    ServeOutcome × World :=
  let cacheKey := "file:" ++ path
  let direct : Option R2Object := if cfg.hasBucket then bucketGet w path else none
  match direct with
  | some obj => cacheAndReturn w now cacheKey (StoredResp.fromBucket path obj.content)
  | none =>
    let urlPattern := "https://" ++ cfg.domain ++ "/" ++ path
    match resolveDbFile w.db.files cfg.domain path with
    | none => (ServeOutcome.notFound, w)
    | some f =>
      if f.storage_type = "telegram" then
        match f.fileId with
        | none => (ServeOutcome.errMissingFileId, w)
        | some tfid => cacheAndReturn w now cacheKey (StoredResp.fromTelegram tfid)
      else
        let viaBucket : Option R2Object :=
          if f.storage_type = "r2" && cfg.hasBucket then
            match f.fileId with
            | some k => bucketGet w k
            | none => none
          else none
        match viaBucket with
        | some obj =>
          cacheAndReturn w now cacheKey
            (StoredResp.fromBucket (f.fileId.getD "") obj.content)
        | none =>
          if f.url ≠ "" && f.url ≠ urlPattern then (ServeOutcome.redirect f.url, w)
          else (ServeOutcome.notFound, w)

/-- Model of `handleFileRequest` (`GET /<path>`): serve from the time-boxed
`fileCache` when fresh (dropping expired entries), otherwise resolve and
memoize. -/
def handleFileRequest (cfg : Config) (w : World) (now : Nat) (path : String) :
    ServeOutcome × World :=
  if path = "" then (ServeOutcome.notFound, w)
  else
    let cacheKey := "file:" ++ path
    match w.fileCache.find? (fun kv => kv.1 = cacheKey) with
    | some kv =>
      if now - kv.2.timestamp < cfg.fileCacheTTL then
        (ServeOutcome.ok kv.2.resp true, w)
      else
        serveResolved cfg
          { w with fileCache := w.fileCache.filter (fun e => e.1 ≠ cacheKey) } now path
    | none => serveResolved cfg w now path

/-! ## Content-type tables (`getContentType` / `getExtensionFromMime`) -/

/-- The extension-to-MIME table of `getContentType`.  The source's object
literal lists `ogg` twice (`video/ogg` then `audio/ogg`); in JS the later
assignment wins, so this list carries only `audio/ogg`. -/
def contentTypes : List (String × String) :=
  [("jpg", "image/jpeg"), ("jpeg", "image/jpeg"), ("png", "image/png"),
   ("gif", "image/gif"), ("webp", "image/webp"), ("svg", "image/svg+xml"),
   ("avif", "image/avif"), ("ico", "image/x-icon"), ("icon", "image/x-icon"),
   ("bmp", "image/bmp"), ("tiff", "image/tiff"), ("tif", "image/tiff"),
   ("mp4", "video/mp4"), ("webm", "video/webm"), ("ogv", "video/ogg"),
   ("avi", "video/x-msvideo"), ("mov", "video/quicktime"), ("wmv", "video/x-ms-wmv"),
   ("flv", "video/x-flv"), ("mkv", "video/x-matroska"), ("m4v", "video/x-m4v"),
   ("ts", "video/mp2t"), ("mp3", "audio/mpeg"), ("wav", "audio/wav"),
   ("ogg", "audio/ogg"), ("m4a", "audio/mp4"), ("aac", "audio/aac"),
   ("flac", "audio/flac"), ("wma", "audio/x-ms-wma"), ("pdf", "application/pdf"),
   ("doc", "application/msword"),
   ("docx", "application/vnd.openxmlformats-officedocument.wordprocessingml.document"),
   ("xls", "application/vnd.ms-excel"),
   ("xlsx", "application/vnd.openxmlformats-officedocument.spreadsheetml.sheet"),
   ("ppt", "application/vnd.ms-powerpoint"),
   ("pptx", "application/vnd.openxmlformats-officedocument.presentationml.presentation"),
   ("rtf", "application/rtf"), ("txt", "text/plain"), ("md", "text/markdown"),
   ("csv", "text/csv"), ("html", "text/html"), ("htm", "text/html"),
   ("css", "text/css"), ("js", "application/javascript"), ("xml", "application/xml"),
   ("json", "application/json"), ("zip", "application/zip"),
   ("rar", "application/x-rar-compressed"), ("7z", "application/x-7z-compressed"),
   ("tar", "application/x-tar"), ("gz", "application/gzip"),
   ("swf", "application/x-shockwave-flash"), ("ttf", "font/ttf"), ("otf", "font/otf"),
   ("woff", "font/woff"), ("woff2", "font/woff2"),
   ("eot", "application/vnd.ms-fontobject"), ("ini", "text/plain"),
   ("yml", "application/yaml"), ("yaml", "application/yaml"), ("toml", "text/plain"),
   ("py", "text/x-python"), ("java", "text/x-java"), ("c", "text/x-c"),
   ("cpp", "text/x-c++"), ("cs", "text/x-csharp"), ("php", "application/x-php"),
   ("rb", "text/x-ruby"), ("go", "text/x-go"), ("rs", "text/x-rust"),
   ("sh", "application/x-sh"), ("bat", "application/x-bat"), ("sql", "application/sql")]

/-- Model of `getContentType(ext)`. -/
def getContentType (ext : String) : String :=
  match contentTypes.find? (fun kv => kv.1 = lowerStr ext) with
  | some kv => kv.2
  | none => "application/octet-stream"

/-- The MIME-to-extension table of `getExtensionFromMime`. -/
def mimeExtensions : List (String × String) :=
  [("image/jpeg", "jpg"), ("image/jpg", "jpg"), ("image/png", "png"),
   ("image/gif", "gif"), ("image/webp", "webp"), ("image/svg+xml", "svg"),
   ("image/bmp", "bmp"), ("image/avif", "avif"), ("image/tiff", "tiff"),
   ("image/x-icon", "ico"), ("video/mp4", "mp4"), ("video/webm", "webm"),
   ("video/ogg", "ogv"), ("video/x-msvideo", "avi"), ("video/quicktime", "mov"),
   ("video/x-ms-wmv", "wmv"), ("video/x-flv", "flv"), ("video/x-matroska", "mkv"),
   ("video/x-m4v", "m4v"), ("video/mp2t", "ts"), ("audio/mpeg", "mp3"),
   ("audio/mp3", "mp3"), ("audio/ogg", "ogg"), ("audio/wav", "wav"),
   ("audio/mp4", "m4a"), ("audio/aac", "aac"), ("audio/flac", "flac"),
   ("audio/x-ms-wma", "wma"), ("application/pdf", "pdf"),
   ("application/msword", "doc"),
   ("application/vnd.openxmlformats-officedocument.wordprocessingml.document", "docx"),
   ("application/vnd.ms-excel", "xls"),
   ("application/vnd.openxmlformats-officedocument.spreadsheetml.sheet", "xlsx"),
   ("application/vnd.ms-powerpoint", "ppt"),
   ("application/vnd.openxmlformats-officedocument.presentationml.presentation", "pptx"),
   ("application/rtf", "rtf"), ("application/zip", "zip"),
   ("application/x-rar-compressed", "rar"), ("application/x-7z-compressed", "7z"),
   ("application/x-tar", "tar"), ("application/gzip", "gz"), ("text/plain", "txt"),
   ("text/markdown", "md"), ("text/csv", "csv"), ("text/html", "html"),
   ("text/css", "css"), ("text/javascript", "js"), ("application/javascript", "js"),
   ("application/json", "json"), ("application/xml", "xml"), ("font/ttf", "ttf"),
   ("font/otf", "otf"), ("font/woff", "woff"), ("font/woff2", "woff2"),
   ("application/vnd.ms-fontobject", "eot"), ("application/octet-stream", "bin"),
   ("application/x-shockwave-flash", "swf")]

/-- Model of `getExtensionFromMime(mimeType)` (empty string stands for the JS
falsy argument, which yields `jpg`). -/
def getExtensionFromMime (mimeType : String) : String :=
  if mimeType = "" then "jpg"
  else
    match mimeExtensions.find? (fun kv => kv.1 = mimeType) with
    | some kv => kv.2
    | none => "bin"

/-! ## Telegram webhook: updates, media upload, dialogue handling -/

/-- A Telegram media attachment as the handlers use it: its opaque
`file_id` plus the optional `file_name` / `mime_type` metadata. -/
structure MediaFile where
  file_id : String
  file_name : Option String
  mime_type : Option String
deriving Repr, DecidableEq

/-- An incoming `update.message`: its text and media fields.  `otherMedia`
stands for any unlisted message field carrying a `file_id` (the fallback
scan in the webhook). -/
structure TgMessage where
  text : Option String
  photo : Option MediaFile
  document : Option MediaFile
  video : Option MediaFile
  audio : Option MediaFile
  voice : Option MediaFile
  video_note : Option MediaFile
  otherMedia : Option MediaFile
deriving Repr, DecidableEq

/-- A text-only message. -/
def textMessage (t : String) : TgMessage :=
  { text := some t, photo := none, document := none, video := none,
    audio := none, voice := none, video_note := none, otherMedia := none }

/-- An incoming webhook update. -/
inductive TgUpdate where
  | message (chatId : String) (chatType : String) (msg : TgMessage)
  | callbackQuery (fromId : String) (data : String)
  | other
deriving Repr, DecidableEq

/-- The responses of the external services consulted during a media
upload: `getFile`, the file download, and the storage-channel send (with
its one `sendDocument` retry). -/
structure MediaEnv where
  getFileOk : Bool
  filePath : String
  fetchOk : Bool
  contentLength : Option Nat
  content : Nat
  tgSendOk : Bool
  tgResultMessageId : Option Int
  tgResultFileId : Option String
  tgRetryOk : Bool
  tgRetryMessageId : Option Int
  tgRetryFileId : Option String
deriving Repr, DecidableEq

/-- The sanitization `fileName.replace(/[^a-zA-Z0-9\-\_\.]/g, '_')`. -/
def sanitizeFileName (s : String) : String :=
  String.mk (s.data.map (fun c =>
    if c.isAlphanum || c = '-' || c = '_' || c = '.' then c else '_'))

/-- The error path of `handleMediaUpload`'s catch block: remove the
processing message and report the failure. -/
def mediaUploadFail (w : World) (effs : List Effect) (chatId msg : String) :
    World × List Effect :=
  (w, effs ++ [Effect.deleteProcessingMessage,
    Effect.sendMessage chatId ("❌ 上传失败: " ++ msg)])

/-- Model of `handleMediaUpload`: download the attachment from Telegram, enforce the
size ceiling on the reported content length, resolve the category, derive
name/extension/MIME, write to the chosen backend, and insert the File row.
The dead `file.video_note`/`file.voice`/`file.audio`/`file.video` naming
branches (those properties never exist on the extracted media object) are
elided; the generic `file_<ts>.<ext>` fallback they always reach is kept.
The lazy default-category promise is evaluated at its await point. -/
def handleMediaUpload (cfg : Config) (now : Nat) (env : MediaEnv) (w : World)
    (chatId : String) (file : MediaFile) (us : UserSetting) :
    World × List Effect :=
  let effs : List Effect := [Effect.sendMessage chatId "⏳ 正在处理您的文件，请稍候..."]
  if !env.getFileOk then mediaUploadFail w effs chatId "获取文件路径失败"
  else if !env.fetchOk then mediaUploadFail w effs chatId "获取文件内容失败"
  else
    let tooLarge := match env.contentLength with
      | some n => decide (n > cfg.maxSizeMB * 1024 * 1024)
      | none => false
    if tooLarge then
      (w, effs ++ [Effect.deleteProcessingMessage,
        Effect.sendMessage chatId ("❌ 文件超过" ++ toString cfg.maxSizeMB ++ "MB限制")])
    else
      let effs := effs ++ [Effect.editProcessingMessage "⏳ 文件已接收，正在上传到存储..."]
      let catRes : Option Nat × World :=
        match us.current_category_id with
        | some c => (some c, w)
        | none =>
          match findCategoryByName w.db.categories defaultCategoryName with
          | some d => (some d.id, w)
          | none =>
            (some w.db.nextCategoryId,
             { w with db := { w.db with
                 categories := w.db.categories ++
                   [{ id := w.db.nextCategoryId, name := defaultCategoryName,
                      created_at := now }]
                 nextCategoryId := w.db.nextCategoryId + 1 } })
      let categoryId := catRes.1
      let w := catRes.2
      let mimeType0 := (file.mime_type.getD "application/octet-stream")
      let filePathExt := lowerStr ((splitOnChar '.' env.filePath).getLastD env.filePath)
      let named : String × String :=
        match file.file_name with
        | some fn => (fn, lowerStr ((splitOnChar '.' fn).getLastD ""))
        | none =>
          if filePathExt ≠ "" && filePathExt ≠ lowerStr env.filePath then ("", filePathExt)
          else ("", getExtensionFromMime mimeType0)
      let ext := named.2
      let fileName := if named.1 ≠ "" then named.1
        else "file_" ++ toString now ++ "." ++ ext
      let mimeType := if mimeType0 = "" || mimeType0 = "application/octet-stream" then
          getContentType ext else mimeType0
      let mimeParts := splitOnChar '/' mimeType
      let mainType := mimeParts.getD 0 ""
      let subType := mimeParts.getD 1 ""
      let storageType := if us.storage_type ≠ "" then us.storage_type else "r2"
      let key := toString now ++ "_" ++ sanitizeFileName fileName
      let stored : Option (World × List Effect × String × Int) :=
        if storageType = "r2" && cfg.hasBucket then
          some (bucketPutOp w key { contentType := mimeType, content := env.content },
                effs ++ [Effect.bucketPut key], key, -1)
        else
          let field :=
            if mainType = "image" && !(subType = "svg+xml" || subType = "x-icon") then "photo"
            else if mainType = "video" then "video"
            else if mainType = "audio" then "audio"
            else "document"
          let sendEffs := effs ++ [Effect.tgStoreSend fileName]
          if !env.tgSendOk then
            if field ≠ "document" then
              let retryEffs := sendEffs ++ [Effect.tgStoreSend fileName]
              if !env.tgRetryOk then none
              else
                match env.tgRetryFileId, env.tgRetryMessageId with
                | some fid, some mid =>
                  some ({ w with tgStore := w.tgStore ++ [mid] }, retryEffs, fid, mid)
                | _, _ => none
            else none
          else
            match env.tgResultFileId, env.tgResultMessageId with
            | some fid, some mid =>
              some ({ w with tgStore := w.tgStore ++ [mid] }, sendEffs, fid, mid)
            | _, _ => none
      match stored with
      | none =>
        mediaUploadFail w (effs ++ [Effect.tgStoreSend fileName]) chatId "Telegram文件上传失败"
      | some st =>
        let w1 := st.1
        let effs1 := st.2.1
        let dbFileId := st.2.2.1
        let dbMessageId := st.2.2.2
        let finalUrl := "https://" ++ cfg.domain ++ "/" ++ key
        let newRow : FileRow :=
          { id := w1.db.nextFileId, url := finalUrl, fileId := some dbFileId,
            message_id := dbMessageId, created_at := now, file_name := some fileName,
            file_size := env.contentLength.getD 0, mime_type := mimeType,
            storage_type := storageType, category_id := categoryId,
            chat_id := chatId, remark := none }
        let db2 := { w1.db with files := w1.db.files ++ [newRow],
                                nextFileId := w1.db.nextFileId + 1 }
        let w2 := { w1 with db := db2 }
        (w2, effs1 ++ [Effect.editProcessingMessage "⏳ 正在写入数据库...",
          Effect.deleteProcessingMessage, Effect.sendQrCode chatId finalUrl])

/-- The `waiting_for === 'new_category'` branch: create the named category
(or report the duplicate), make it current, clear the state, re-render the
panel. -/
def botCreateCategory (now : Nat) (w : World) (chatId : String)
    (t : String) : World × List Effect :=
  let categoryName := jsTrim t
  let step : World × List Effect :=
    match findCategoryByName w.db.categories categoryName with
    | some _ =>
      (w, [Effect.sendMessage chatId ("⚠️ 分类\"" ++ categoryName ++ "\"已存在")])
    | none =>
      let db1 := { w.db with
        categories := w.db.categories ++
          [{ id := w.db.nextCategoryId, name := categoryName, created_at := now }]
        nextCategoryId := w.db.nextCategoryId + 1 }
      let newCat := findCategoryByName db1.categories categoryName
      let db2 := updateUserSetting db1 chatId (fun u =>
        { u with current_category_id := newCat.map (fun c => c.id), waiting_for := none })
      ({ w with db := db2 },
       [Effect.sendMessage chatId ("✅ 分类\"" ++ categoryName ++ "\"创建成功并已设为当前分类")])
  let dbFin := updateUserSetting step.1.db chatId (fun u => { u with waiting_for := none })
  ({ step.1 with db := dbFin }, step.2 ++ [Effect.sendPanel chatId])

/-- The legacy `waiting_for === 'new_suffix'` rename branch (lines 646-706
of the source): the row update writes `url` (and `fileId` for r2) but not
`file_name`. -/
def botRenameNewSuffix (cfg : Config) (w : World) (chatId : String)
    (t : String) (editingId : Nat) : World × List Effect :=
  let newSuffix := jsTrim t
  let core : World × List Effect :=
    match findFileById w.db.files editingId with
    | none => (w, [Effect.sendMessage chatId "⚠️ 文件不存在或已被删除"])
    | some f =>
      let originalFileName := getFileName f.url
      let fileExt := lastExt originalFileName
      let newFileName := newSuffix ++ "." ++ fileExt
      let fileUrl := "https://" ++ cfg.domain ++ "/" ++ newFileName
      let upd : World × List Effect :=
        if f.storage_type = "telegram" then
          ({ w with db := updateFileById w.db f.id (fun g => { g with url := fileUrl }) }, [])
        else if f.storage_type = "r2" && cfg.hasBucket then
          let fid2 := f.fileId.getD originalFileName
          match bucketGet w fid2 with
          | some obj =>
            let w1 := bucketPutOp w newFileName obj
            let w2 := bucketDeleteOp w1 fid2
            ({ w2 with db := updateFileById w2.db f.id (fun g =>
                { g with fileId := some newFileName, url := fileUrl }) },
             [Effect.bucketPut newFileName, Effect.bucketDelete fid2])
          | none =>
            ({ w with db := updateFileById w.db f.id (fun g => { g with url := fileUrl }) }, [])
        else
          ({ w with db := updateFileById w.db f.id (fun g => { g with url := fileUrl }) }, [])
      (upd.1, upd.2 ++ [Effect.sendMessage chatId ("✅ 重命名成功！\n\n新链接：" ++ fileUrl)])
  let dbFin := updateUserSetting core.1.db chatId (fun u =>
    { u with waiting_for := none, editing_file_id := none })
  ({ core.1 with db := dbFin }, core.2 ++ [Effect.sendPanel chatId])

/-- The `waiting_for === 'edit_suffix_input_new'` rename branch (lines
890-950): identical to the legacy branch except that every row update also
writes `file_name` (the "BUG 3 FIX"). -/
def botRenameEditNew (cfg : Config) (w : World) (chatId : String)
    (t : String) (editingId : Nat) : World × List Effect :=
  let newSuffix := jsTrim t
  let core : World × List Effect :=
    match findFileById w.db.files editingId with
    | none => (w, [Effect.sendMessage chatId "⚠️ 文件不存在或已被删除"])
    | some f =>
      let originalFileName := getFileName f.url
      let fileExt := lastExt originalFileName
      let newFileName := newSuffix ++ "." ++ fileExt
      let fileUrl := "https://" ++ cfg.domain ++ "/" ++ newFileName
      let upd : World × List Effect :=
        if f.storage_type = "telegram" then
          ({ w with db := updateFileById w.db f.id (fun g =>
              { g with url := fileUrl, file_name := some newFileName }) }, [])
        else if f.storage_type = "r2" && cfg.hasBucket then
          let fid2 := f.fileId.getD originalFileName
          match bucketGet w fid2 with
          | some obj =>
            let w1 := bucketPutOp w newFileName obj
            let w2 := bucketDeleteOp w1 fid2
            ({ w2 with db := updateFileById w2.db f.id (fun g =>
                { g with fileId := some newFileName, url := fileUrl,
                         file_name := some newFileName }) },
             [Effect.bucketPut newFileName, Effect.bucketDelete fid2])
          | none =>
            ({ w with db := updateFileById w.db f.id (fun g =>
                { g with url := fileUrl, file_name := some newFileName }) }, [])
        else
          ({ w with db := updateFileById w.db f.id (fun g =>
              { g with url := fileUrl, file_name := some newFileName }) }, [])
      (upd.1, upd.2 ++ [Effect.sendMessage chatId ("✅ 重命名成功！\n\n新链接：" ++ fileUrl)])
  let dbFin := updateUserSetting core.1.db chatId (fun u =>
    { u with waiting_for := none, editing_file_id := none })
  ({ core.1 with db := dbFin }, core.2 ++ [Effect.sendPanel chatId])

/-- The display name used for the cache key and the confirmation message:
`fileToDelete.file_name || getFileName(fileToDelete.url)`. -/
def displayFileName (f : FileRow) : String :=
  match f.file_name with
  | some n => if n ≠ "" then n else getFileName f.url
  | none => getFileName f.url

/-- The `waiting_for === 'delete_file_input'` branch: clear the state, then
resolve the input (exact url scoped to the chat, else filename / url-suffix
match with most-recently-created winning), delete the backend copy
best-effort and the row, and drop the `file:<name>` cache entry. -/
def botDeleteFileInput (cfg : Config) (w : World) (chatId : String)
    (t : String) : World × List Effect :=
  let db1 := updateUserSetting w.db chatId (fun u => { u with waiting_for := none })
  let w1 := { w with db := db1 }
  let userInput := jsTrim t
  if isHttpUrl userInput then
    botDeleteResolved cfg w1 chatId
      (w1.db.files.find? (fun f => f.url = userInput && f.chat_id = chatId))
  else if !(userInput.data.contains '.') then
    (w1, [Effect.sendMessage chatId "⚠️ 请输入完整的文件名称（包含扩展名）或完整URL",
          Effect.sendPanel chatId])
  else
    botDeleteResolved cfg w1 chatId
      (findLatest w1.db.files (fun f =>
        (f.file_name = some userInput || strEndsWith f.url ("/" ++ userInput)) &&
        f.chat_id = chatId))
where
  /-- The shared tail of the branch once resolution has happened. -/
  botDeleteResolved (cfg : Config) (w1 : World) (chatId : String)
      (fileToDelete : Option FileRow) : World × List Effect :=
    match fileToDelete with
    | none =>
      (w1, [Effect.sendMessage chatId "⚠️ 未找到匹配的文件，请输入完整的文件名称或URL",
            Effect.sendPanel chatId])
    | some f =>
      let fileName := displayFileName f
      let st : World × List Effect :=
        if f.storage_type = "r2" && cfg.hasBucket && strTruthy f.fileId then
          (bucketDeleteOp w1 (f.fileId.getD ""), [Effect.bucketDelete (f.fileId.getD "")])
        else if f.storage_type = "telegram" && f.message_id ≠ 0 && f.message_id ≠ -1 then
          ({ w1 with tgStore := w1.tgStore.filter (fun m => m ≠ f.message_id) },
           [Effect.tgStoreDeleteMessage f.message_id])
        else (w1, [])
      let w2 := { st.1 with db := deleteFileById st.1.db f.id }
      let cacheKey := "file:" ++ fileName
      let w3 := { w2 with fileCache := w2.fileCache.filter (fun kv => kv.1 ≠ cacheKey) }
      (w3, st.2 ++ [Effect.sendMessage chatId ("✅ 文件已成功删除: " ++ fileName),
                    Effect.sendPanel chatId])

/-- The `waiting_for === 'edit_suffix_input_file'` branch: resolve the file
to rename (url, else filename / url-suffix with most-recently-created
winning), then move to `edit_suffix_input_new` with `editing_file_id` set,
or clear the state on failure. -/
def botEditSuffixChooseFile (w : World) (chatId : String) (t : String) :
    World × List Effect :=
  let userInput := jsTrim t
  if isHttpUrl userInput then
    botEditChooseResolved w chatId
      (w.db.files.find? (fun f => f.url = userInput && f.chat_id = chatId))
  else if !(userInput.data.contains '.') then
    ({ w with db := updateUserSetting w.db chatId (fun u =>
        { u with waiting_for := none, editing_file_id := none }) },
     [Effect.sendMessage chatId "⚠️ 请输入完整的文件名称（包含扩展名）或完整URL",
      Effect.sendPanel chatId])
  else
    botEditChooseResolved w chatId
      (findLatest w.db.files (fun f =>
        (f.file_name = some userInput || strEndsWith f.url ("/" ++ userInput)) &&
        f.chat_id = chatId))
where
  /-- The shared tail of the branch once resolution has happened. -/
  botEditChooseResolved (w : World) (chatId : String)
      (fileToEdit : Option FileRow) : World × List Effect :=
    match fileToEdit with
    | none =>
      ({ w with db := updateUserSetting w.db chatId (fun u =>
          { u with waiting_for := none, editing_file_id := none }) },
       [Effect.sendMessage chatId "⚠️ 未找到匹配的文件，请输入完整的文件名称或URL",
        Effect.sendPanel chatId])
    | some f =>
      let fileName := displayFileName f
      let parts := splitOnChar '.' fileName
      let currentSuffix := String.intercalate "." parts.dropLast
      ({ w with db := updateUserSetting w.db chatId (fun u =>
          { u with waiting_for := some "edit_suffix_input_new",
                   editing_file_id := some f.id }) },
       [Effect.sendMessage chatId
         ("📝 找到文件: " ++ fileName ++ "\n当前名称: " ++ currentSuffix ++
          "\n\n请回复此消息，输入文件的新名称（不含扩展名）")])

/-- Does the message carry one of the six explicitly handled media
fields? -/
def hasExplicitMedia (msg : TgMessage) : Bool :=
  msg.photo.isSome || msg.document.isSome || msg.video.isSome ||
  msg.audio.isSome || msg.voice.isSome || msg.video_note.isSome

/-- The media-field selection of the webhook's upload branch (document,
video, audio, voice, video_note take priority over photo). -/
def selectMedia (msg : TgMessage) : Option MediaFile :=
  match msg.document with
  | some d => some d
  | none => match msg.video with
    | some d => some d
    | none => match msg.audio with
      | some d => some d
      | none => match msg.voice with
        | some d => some d
        | none => match msg.video_note with
          | some d => some d
          | none => msg.photo

/-- The message-handling part of `handleTelegramWebhook` (everything under
`if (update.message)` once the user setting is loaded): the dialogue state
machine. -/
def handleMessage (cfg : Config) (now : Nat) (env : MediaEnv) (w : World)
    (chatId : String) (us : UserSetting) (msg : TgMessage) : World × List Effect :=
  if us.waiting_for = some "new_category" && strTruthy msg.text then
    botCreateCategory now w chatId (msg.text.getD "")
  else if us.waiting_for = some "new_suffix" && strTruthy msg.text &&
      us.editing_file_id.isSome then
    botRenameNewSuffix cfg w chatId (msg.text.getD "") (us.editing_file_id.getD 0)
  else if us.waiting_for = some "delete_file_input" && strTruthy msg.text then
    botDeleteFileInput cfg w chatId (msg.text.getD "")
  else if msg.text = some "/start" then
    (w, [Effect.sendPanel chatId])
  else if hasExplicitMedia msg then
    match selectMedia msg with
    | some file => handleMediaUpload cfg now env w chatId file us
    | none => (w, [Effect.sendMessage chatId "❌ 无法识别的文件类型"])
  else
    match msg.otherMedia with
    | some file => handleMediaUpload cfg now env w chatId file us
    | none =>
      if us.waiting_for = some "edit_suffix_input_file" && strTruthy msg.text then
        botEditSuffixChooseFile w chatId (msg.text.getD "")
      else if us.waiting_for = some "edit_suffix_input_new" && strTruthy msg.text &&
          us.editing_file_id.isSome then
        botRenameEditNew cfg w chatId (msg.text.getD "") (us.editing_file_id.getD 0)
      else if strTruthy msg.text && msg.text ≠ some "/start" then
        (w, [Effect.sendMessage chatId "请发送图片或文件进行上传，或使用 /start 查看主菜单"])
      else (w, [])

/-- Model of `config.buttonCache.set(key, entry)` (overwrite). -/
def buttonCacheSet (w : World) (key : String) (e : ButtonEntry Effect) : World :=
  { w with buttonCache := w.buttonCache.filter (fun kv => kv.1 ≠ key) ++ [(key, e)] }

/-- Model of `ORDER BY created_at DESC` (for the recent-file lists). -/
def recentFirst (files : List FileRow) : List FileRow :=
  files.mergeSort (fun a b => b.created_at ≤ a.created_at)

/-- The branch chain of `handleCallbackQuery` after the stale-state reset
and the button-cache probe. -/
def callbackDispatch (now : Nat) (w : World) (chatId : String)
    (cbData : String) (us : UserSetting) (effs0 : List Effect) : World × List Effect :=
  let cacheKey := "button:" ++ chatId ++ ":" ++ cbData
  if cbData = "switch_storage" then
    let newST := if us.storage_type = "r2" then "telegram" else "r2"
    let w1 := { w with db := updateUserSetting w.db chatId (fun u =>
      { u with storage_type := newST }) }
    let w2 := buttonCacheSet w1 cacheKey
      { timestamp := now, response := none, panelFlag := true, reply := none }
    (w2, effs0 ++ [Effect.sendPanel chatId])
  else if cbData = "list_categories" then
    if w.db.categories.isEmpty then
      (w, effs0 ++ [Effect.sendMessage chatId "⚠️ 暂无分类，请先创建分类"])
    else
      let listEff := Effect.sendCategoryList chatId (w.db.categories.map (fun c => c.name))
      let w1 := buttonCacheSet w cacheKey
        { timestamp := now, response := none, panelFlag := false, reply := some listEff }
      (w1, effs0 ++ [listEff])
  else if cbData = "create_category" then
    let prompt := Effect.sendMessage chatId "📝 请回复此消息，输入新分类名称"
    let w1 := buttonCacheSet w cacheKey
      { timestamp := now, response := some prompt, panelFlag := false, reply := none }
    let w2 := { w1 with db := updateUserSetting w1.db chatId (fun u =>
      { u with waiting_for := some "new_category" }) }
    (w2, effs0 ++ [prompt])
  else if strStartsWith cbData "set_category_" then
    let catId := strToNat? ((splitOnChar '_' cbData).getD 2 "")
    let w1 := { w with db := updateUserSetting w.db chatId (fun u =>
      { u with current_category_id := catId }) }
    let catName : Option String := match catId with
      | some c => (findCategoryById w.db.categories c).map (fun cat => cat.name)
      | none => none
    let resp := Effect.sendMessage chatId ("✅ 已切换到分类: " ++ catName.getD "未知分类")
    let w2 := buttonCacheSet w1 cacheKey
      { timestamp := now, response := some resp, panelFlag := true, reply := none }
    (w2, effs0 ++ [resp, Effect.sendPanel chatId])
  else if cbData = "back_to_panel" then
    let w1 := buttonCacheSet w cacheKey
      { timestamp := now, response := none, panelFlag := true, reply := none }
    let w2 :=
      if us.waiting_for.isSome then
        { w1 with db := updateUserSetting w1.db chatId (fun u =>
          { u with waiting_for := none, editing_file_id := none }) }
      else w1
    (w2, effs0 ++ [Effect.sendPanel chatId])
  else if cbData = "r2_stats" then
    let r2files := w.db.files.filter (fun f => f.chat_id = chatId && f.storage_type = "r2")
    let stats := Effect.sendR2Stats chatId r2files.length
      (r2files.foldl (fun acc f => acc + f.file_size) 0)
    let w1 := buttonCacheSet w cacheKey
      { timestamp := now, response := some stats, panelFlag := false, reply := none }
    (w1, effs0 ++ [stats])
  else if cbData = "edit_suffix" then
    let recent := (recentFirst (w.db.files.filter (fun f => f.chat_id = chatId))).take 5
    if recent.isEmpty then
      (w, effs0 ++ [Effect.sendMessage chatId "⚠️ 您还没有上传过文件"])
    else (w, effs0 ++ [Effect.sendFileButtons chatId (recent.map (fun f => f.id))])
  else if cbData = "recent_files" then
    let recent := (recentFirst (w.db.files.filter (fun f => f.chat_id = chatId))).take 10
    if recent.isEmpty then
      (w, effs0 ++ [Effect.sendMessage chatId "⚠️ 您还没有上传过文件"])
    else
      let listEff := Effect.sendRecentFiles chatId (recent.map (fun f => f.url))
      let w1 := buttonCacheSet w cacheKey
        { timestamp := now, response := none, panelFlag := false, reply := some listEff }
      (w1, effs0 ++ [listEff])
  else if cbData = "edit_suffix_input" then
    let w1 := { w with db := updateUserSetting w.db chatId (fun u =>
      { u with waiting_for := some "edit_suffix_input_file" }) }
    (w1, effs0 ++ [Effect.sendMessage chatId
      "✏️ 请回复此消息，输入要重命名的文件完整名称（必须包含扩展名）或完整URL链接"])
  else if cbData = "delete_file_input" then
    let w1 := { w with db := updateUserSetting w.db chatId (fun u =>
      { u with waiting_for := some "delete_file_input" }) }
    (w1, effs0 ++ [Effect.sendMessage chatId
      "🗑️ 请回复此消息，输入要删除的文件完整名称（必须包含扩展名）或完整URL链接"])
  else if strStartsWith cbData "delete_file_confirm_" then (w, effs0)
  else if strStartsWith cbData "delete_file_do_" then (w, effs0)
  else if us.waiting_for = some "edit_suffix_input_file" ||
      us.waiting_for = some "edit_suffix_input_new" then
    -- `update.message` is undefined on a callback update, so the guard's
    -- `update.message.text` access throws and the catch block reports it
    (w, effs0 ++ [Effect.sendMessage chatId "❌ 处理请求时出错: TypeError"])
  else (w, effs0)

/-- Model of `handleCallbackQuery`: acknowledge the callback, reset stale dialogue
state (except for the expectations matching the button), replay a fresh
button-cache entry if present, otherwise dispatch on the callback data. -/
def handleCallbackQuery (cfg : Config) (now : Nat) (w : World) (chatId : String)
    (cbData : String) (us : UserSetting) : World × List Effect :=
  let effs0 : List Effect := [Effect.answerCallback]
  let keepState :=
    (us.waiting_for = some "new_suffix" && strStartsWith cbData "edit_suffix_file_") ||
    (us.waiting_for = some "new_category" && cbData = "create_category") ||
    (us.waiting_for = some "delete_file_input" && cbData = "delete_file_input") ||
    (us.waiting_for = some "edit_suffix_input_file" && cbData = "edit_suffix_input") ||
    (us.waiting_for = some "edit_suffix_input_new" && us.editing_file_id.isSome)
  let reset := us.waiting_for.isSome && !(strStartsWith cbData "delete_file_do_") && !keepState
  let w1 :=
    if reset then
      { w with db := updateUserSetting w.db chatId (fun u =>
        { u with waiting_for := none, editing_file_id := none }) }
    else w
  let us1 :=
    if reset then { us with waiting_for := none, editing_file_id := none } else us
  let cacheKey := "button:" ++ chatId ++ ":" ++ cbData
  let cached :=
    if !(strStartsWith cbData "delete_file_confirm_") && !(strStartsWith cbData "delete_file_do_")
    then w1.buttonCache.find? (fun kv => kv.1 = cacheKey) else none
  match cached with
  | some kv =>
    if now - kv.2.timestamp < cfg.buttonCacheTTL then
      (w1, effs0 ++ kv.2.response.toList ++
        (if kv.2.panelFlag then [Effect.sendPanel chatId] else []) ++ kv.2.reply.toList)
    else
      callbackDispatch now
        { w1 with buttonCache := w1.buttonCache.filter (fun kv2 => kv2.1 ≠ cacheKey) }
        chatId cbData us1 effs0
  | none => callbackDispatch now w1 chatId cbData us1 effs0

/-- Lines 596-616: load the chat's `user_settings` row, creating it (with
storage type `r2` and the default category, created if absent) on first
contact. -/
def ensureUserSetting (now : Nat) (w : World) (chatId : String) : UserSetting × World :=
  match findUserSetting w.db chatId with
  | some u => (u, w)
  | none =>
    let res : Option Nat × World :=
      match findCategoryByName w.db.categories defaultCategoryName with
      | some d => (some d.id, w)
      | none =>
        (some w.db.nextCategoryId,
         { w with db := { w.db with
             categories := w.db.categories ++
               [{ id := w.db.nextCategoryId, name := defaultCategoryName,
                  created_at := now }]
             nextCategoryId := w.db.nextCategoryId + 1 } })
    let newUs : UserSetting :=
      { chat_id := chatId, storage_type := "r2", current_category_id := res.1,
        waiting_for := none, editing_file_id := none }
    (newUs,
     { res.2 with db := { res.2.db with
         userSettings := res.2.db.userSettings ++ [newUs] } })

/-- Model of `handleTelegramWebhook`: ignore group/supergroup messages and updates
without a chat, enforce the allowed-chat list (sending the unauthorized
notice only when a bot token is configured), ensure the user-settings row,
and dispatch to the message or callback handler.  The returned response is
`OK` on every path modelled here. -/
def handleTelegramWebhook (cfg : Config) (now : Nat) (env : MediaEnv) (w : World)
    (update : TgUpdate) : World × List Effect :=
  match update with
  | TgUpdate.other => (w, [])
  | TgUpdate.message chatId chatType msg =>
    if chatType = "group" || chatType = "supergroup" then (w, [])
    else if !cfg.tgChatId.isEmpty && !(cfg.tgChatId.contains chatId) then
      (w, if cfg.tgBotToken ≠ "" then
            [Effect.sendMessage chatId "你无权使用 请联系管理员授权"] else [])
    else
      let p := ensureUserSetting now w chatId
      handleMessage cfg now env p.2 chatId p.1 msg
  | TgUpdate.callbackQuery fromId cbData =>
    if !cfg.tgChatId.isEmpty && !(cfg.tgChatId.contains fromId) then
      (w, if cfg.tgBotToken ≠ "" then
            [Effect.sendMessage fromId "你无权使用 请联系管理员授权"] else [])
    else
      let p := ensureUserSetting now w fromId
      handleCallbackQuery cfg now p.2 fromId cbData p.1

/-! ## Web upload (`handleUploadRequest`, POST path) -/

/-- The multipart `file` field of the upload form. -/
structure WebFile where
  name : String
  size : Nat
  declaredType : String
  content : Nat
deriving Repr, DecidableEq

/-- The JSON response of the upload endpoint. -/
structure UploadResp where
  status : Nat
  msg : String
  url : Option String
  error : Option String
deriving Repr, DecidableEq

/-- Model of `handleUploadRequest` (POST): reject a missing or oversize file before
anything else, then resolve the default category, persist the chosen
storage/category on the web chat's user-settings row, write the bytes to
the chosen backend (with the one `sendDocument` retry on the chat-store
path) and insert the File row.  The second `Date.now()` of the telegram
branch is modelled as the same `now`. -/
def handleUploadRequest (cfg : Config) (now : Nat) (env : MediaEnv) (w : World)
    (file : Option WebFile) (categoryId : Option Nat) (storageType : String) :
    UploadResp × World × List Effect :=
  match file with
  | none =>
    ({ status := 0, msg := "✘ 上传失败", url := none, error := some "未找到文件" }, w, [])
  | some file =>
    if file.size > cfg.maxSizeMB * 1024 * 1024 then
      ({ status := 0, msg := "✘ 上传失败", url := none,
         error := some ("文件超过" ++ toString cfg.maxSizeMB ++ "MB限制") }, w, [])
    else
      let chatId := cfg.tgChatId.getD 0 ""
      let defRes : Option Nat × World :=
        match findCategoryByName w.db.categories defaultCategoryName with
        | some d => (some d.id, w)
        | none =>
          (some w.db.nextCategoryId,
           { w with db := { w.db with
               categories := w.db.categories ++
                 [{ id := w.db.nextCategoryId, name := defaultCategoryName,
                    created_at := now }]
               nextCategoryId := w.db.nextCategoryId + 1 } })
      let finalCategoryId := match categoryId with
        | some c => some c
        | none => defRes.1
      let w1 := { defRes.2 with db := updateUserSetting defRes.2.db chatId (fun u =>
        { u with storage_type := storageType, current_category_id := finalCategoryId }) }
      let ext := lowerStr ((splitOnChar '.' file.name).getLastD "")
      let mimeType := getContentType ext
      let mimeParts := splitOnChar '/' mimeType
      let mainType := mimeParts.getD 0 ""
      let subType := mimeParts.getD 1 ""
      let key := toString now ++ "_" ++ file.name
      let stored : Option (World × List Effect × String × Int) :=
        if storageType = "r2" then
          if cfg.hasBucket then
            some (bucketPutOp w1 key { contentType := mimeType, content := file.content },
                  [Effect.bucketPut key], key, -1)
          else none
        else
          let field :=
            if mainType = "image" &&
                !(subType = "svg+xml" || subType = "x-icon" || subType = "gif") then "photo"
            else if mainType = "video" then "video"
            else if mainType = "audio" then "audio"
            else "document"
          let sendEffs := [Effect.tgStoreSend file.name]
          if !env.tgSendOk then
            if field ≠ "document" then
              let retryEffs := sendEffs ++ [Effect.tgStoreSend file.name]
              if !env.tgRetryOk then none
              else
                match env.tgRetryFileId, env.tgRetryMessageId with
                | some fid, some mid =>
                  some ({ w1 with tgStore := w1.tgStore ++ [mid] }, retryEffs, fid, mid)
                | _, _ => none
            else none
          else
            match env.tgResultFileId, env.tgResultMessageId with
            | some fid, some mid =>
              some ({ w1 with tgStore := w1.tgStore ++ [mid] }, sendEffs, fid, mid)
            | _, _ => none
      match stored with
      | none =>
        ({ status := 0, msg := "✘ 上传失败", url := none,
           error := some "Telegram文件上传失败" }, w1, [Effect.tgStoreSend file.name])
      | some st =>
        let w2 := st.1
        let finalUrl := "https://" ++ cfg.domain ++ "/" ++ key
        let newRow : FileRow :=
          { id := w2.db.nextFileId, url := finalUrl, fileId := some st.2.2.1,
            message_id := st.2.2.2, created_at := now, file_name := some file.name,
            file_size := file.size,
            mime_type := if file.declaredType ≠ "" then file.declaredType else mimeType,
            storage_type := storageType, category_id := finalCategoryId,
            chat_id := chatId, remark := none }
        let db3 := { w2.db with files := w2.db.files ++ [newRow],
                                nextFileId := w2.db.nextFileId + 1 }
        ({ status := 1, msg := "✔ 上传成功", url := some finalUrl, error := none },
         { w2 with db := db3 }, st.2.1)

/-! ## Concrete fixtures used in counterexamples and witnesses -/

/-- A deployment with domain `d`, the default 20 MB ceiling, chat `1`
allowed, and an R2 bucket bound. -/
def cfgFix : Config :=
  { domain := "d", maxSizeMB := 20, fileCacheTTL := 3600000, buttonCacheTTL := 600000,
    tgChatId := ["1"], tgBotToken := "tok", tgStorageChatId := "s", hasBucket := true }

/-- Happy-path external responses for a 100-byte media upload. -/
def envFix : MediaEnv :=
  { getFileOk := true, filePath := "photos/file_1.jpg", fetchOk := true,
    contentLength := some 100, content := 7, tgSendOk := true,
    tgResultMessageId := some 9, tgResultFileId := some "tgf", tgRetryOk := true,
    tgRetryMessageId := some 10, tgRetryFileId := some "tgr" }

/-- The default category with id 1. -/
def defaultCat : Category := { id := 1, name := defaultCategoryName, created_at := 0 }

/-- The default-category row inserted with a fresh id. -/
def newDefaultRow (now nid : Nat) : Category :=
  { id := nid, name := defaultCategoryName, created_at := now }

/-- A user-settings row for chat `1` with the given dialogue state. -/
def usWaiting (wf : Option String) (efid : Option Nat) : UserSetting :=
  { chat_id := "1", storage_type := "telegram", current_category_id := some 1,
    waiting_for := wf, editing_file_id := efid }

/-- A chat-stored file named `old.jpg` owned by chat `1`. -/
def fileOldJpg : FileRow :=
  { id := 1, url := "https://d/old.jpg", fileId := some "tgfid", message_id := 5,
    created_at := 10, file_name := some "old.jpg", file_size := 3,
    mime_type := "image/jpeg", storage_type := "telegram", category_id := some 1,
    chat_id := "1", remark := none }

/-- A world with the default category, the given settings rows and files. -/
def mkWorld (uss : List UserSetting) (files : List FileRow) : World :=
  { db := { categories := [defaultCat], userSettings := uss, files := files,
            nextCategoryId := 2, nextFileId := 10 },
    bucket := [], tgStore := [5], nextTgMsgId := 11, fileCache := [], buttonCache := [] }

/-- Chat `1` awaiting the new suffix for file 1 (the legacy rename flow). -/
def worldNewSuffix : World := mkWorld [usWaiting (some "new_suffix") (some 1)] [fileOldJpg]

/-- Chat `1` awaiting the file to rename. -/
def worldEditFile : World :=
  mkWorld [usWaiting (some "edit_suffix_input_file") none] [fileOldJpg]

/-- Chat `1` awaiting a category name. -/
def worldNewCategory : World :=
  mkWorld [usWaiting (some "new_category") none] [fileOldJpg]

/-- A file whose raw backend reference is `x.bin`. -/
def fileRefXbin : FileRow :=
  { id := 1, url := "https://d/z.png", fileId := some "x.bin", message_id := -1,
    created_at := 10, file_name := some "z.png", file_size := 5,
    mime_type := "image/png", storage_type := "r2", category_id := some 1,
    chat_id := "1", remark := none }

/-- A different file whose file name is `x.bin`. -/
def fileNameXbin : FileRow :=
  { id := 2, url := "https://d/y.jpg", fileId := some "q", message_id := -1,
    created_at := 5, file_name := some "x.bin", file_size := 5,
    mime_type := "image/jpeg", storage_type := "r2", category_id := some 1,
    chat_id := "1", remark := none }

/-- Chat `1` awaiting a delete target, with both `x.bin` files stored. -/
def worldDeletePair : World :=
  { mkWorld [usWaiting (some "delete_file_input") none] [fileRefXbin, fileNameXbin] with
    bucket := [("x.bin", { contentType := "image/png", content := 42 }),
               ("q", { contentType := "image/jpeg", content := 43 })] }

/-- A bucket-stored file `a.jpg`. -/
def fileAjpg : FileRow :=
  { id := 1, url := "https://d/a.jpg", fileId := some "a.jpg", message_id := -1,
    created_at := 10, file_name := some "a.jpg", file_size := 3,
    mime_type := "image/jpeg", storage_type := "r2", category_id := some 1,
    chat_id := "1", remark := none }

/-- A world where `a.jpg` is stored and its serving response is cached
under `file:a.jpg` at time 0. -/
def worldCached : World :=
  { mkWorld [] [fileAjpg] with
    bucket := [("a.jpg", { contentType := "image/jpeg", content := 42 })],
    fileCache := [("file:a.jpg",
      { resp := StoredResp.fromBucket "a.jpg" 42, timestamp := 0 })] }

/-- A second bucket-stored file `c.jpg`, conflicting with renames to `c`. -/
def fileCjpg : FileRow :=
  { id := 2, url := "https://d/c.jpg", fileId := some "c.jpg", message_id := -1,
    created_at := 11, file_name := some "c.jpg", file_size := 4,
    mime_type := "image/jpeg", storage_type := "r2", category_id := some 1,
    chat_id := "1", remark := none }

/-- A world holding `a.jpg` and `c.jpg`. -/
def worldConflict : World :=
  { mkWorld [] [fileAjpg, fileCjpg] with
    bucket := [("a.jpg", { contentType := "image/jpeg", content := 42 }),
               ("c.jpg", { contentType := "image/jpeg", content := 43 })] }

/-- A user category `Photos` with id 2. -/
def catPhotos : Category := { id := 2, name := "Photos", created_at := 5 }

/-- A file filed under the `Photos` category. -/
def filePhoto : FileRow :=
  { id := 1, url := "https://d/p.png", fileId := some "p.png", message_id := -1,
    created_at := 10, file_name := some "p.png", file_size := 3,
    mime_type := "image/png", storage_type := "r2", category_id := some 2,
    chat_id := "1", remark := none }

/-- A user-settings row whose current category is `Photos`. -/
def usPhotos : UserSetting :=
  { chat_id := "1", storage_type := "r2", current_category_id := some 2,
    waiting_for := none, editing_file_id := none }

/-- A database with the default category, the `Photos` category, one file
and one user-settings row both pointing at `Photos`. -/
def dbTwoCats : Db :=
  { categories := [defaultCat, catPhotos]
    userSettings := [usPhotos]
    files := [filePhoto]
    nextCategoryId := 3
    nextFileId := 2 }

/-! ### Schema Manager lemmas -/

theorem addMissingCols_idem (e a : List String) :
    addMissingCols e (addMissingCols e a) = addMissingCols e a := by
  unfold addMissingCols
  have h : (e.filter fun c => !((a ++ e.filter fun c => !(a.contains c)).contains c)) = [] := by
    rw [List.filter_eq_nil_iff]
    intro c hc
    by_cases hmem : c ∈ a
    · simp [hmem]
    · simp [hmem, hc]
  rw [h, List.append_nil]

theorem tablesPresent_repairColumns (s : SchemaState) :
    tablesPresent (repairColumns s) = tablesPresent s := by
  cases s with
  | mk c u f db => cases c <;> cases u <;> cases f <;> simp [repairColumns, tablesPresent]

theorem tablesPresent_ensureDefaultCategory (now : Nat) (s : SchemaState) :
    tablesPresent (ensureDefaultCategory now s) = tablesPresent s := by
  unfold ensureDefaultCategory
  split <;> simp [tablesPresent]

theorem tablesPresent_insertDefaultIgnore (now : Nat) (s : SchemaState) :
    tablesPresent (insertDefaultIgnore now s) = tablesPresent s := by
  unfold insertDefaultIgnore
  split <;> simp [tablesPresent]

theorem tablesPresent_recreateAllTables (now : Nat) (s : SchemaState) :
    tablesPresent (recreateAllTables now s) = true := by
  unfold recreateAllTables
  rw [tablesPresent_insertDefaultIgnore]
  simp [createMissingTables, tablesPresent]

theorem tablesPresent_ensureSchema (now : Nat) (s : SchemaState) :
    tablesPresent (ensureSchema now s) = true := by
  unfold ensureSchema
  split
  · exact tablesPresent_recreateAllTables now s
  · rename_i h
    rw [tablesPresent_ensureDefaultCategory, tablesPresent_repairColumns]
    simpa using h

theorem repairColumns_idem (s : SchemaState) :
    repairColumns (repairColumns s) = repairColumns s := by
  cases s with
  | mk c u f db =>
    cases c <;> cases u <;> cases f <;>
      simp [repairColumns, addMissingCols_idem]

theorem ensureDefaultCategory_db_categories_any (now : Nat) (s : SchemaState) :
    ((ensureDefaultCategory now s).db.categories.any
      (fun c => c.name = defaultCategoryName)) = true := by
  unfold ensureDefaultCategory
  split
  · assumption
  · simp [defaultCategoryName]

theorem ensureDefaultCategory_of_any (now : Nat) (s : SchemaState)
    (h : (s.db.categories.any (fun c => c.name = defaultCategoryName)) = true) :
    ensureDefaultCategory now s = s := by
  unfold ensureDefaultCategory
  simp [h]

theorem repairColumns_db (s : SchemaState) : (repairColumns s).db = s.db := rfl

theorem repairColumns_ensureDefaultCategory (now : Nat) (s : SchemaState) :
    repairColumns (ensureDefaultCategory now s) =
      ensureDefaultCategory now (repairColumns s) := by
  unfold ensureDefaultCategory
  by_cases h : (s.db.categories.any (fun c => c.name = defaultCategoryName)) = true
  · rw [repairColumns_db, if_pos h, if_pos h]
  · rw [repairColumns_db, if_neg h, if_neg h]
    rfl

theorem ensureSchema_present_idem (n m : Nat) (s : SchemaState)
    (h : tablesPresent s = true) :
    ensureSchema n (ensureSchema m s) = ensureSchema m s := by
  have h1 : ensureSchema m s = ensureDefaultCategory m (repairColumns s) := by
    unfold ensureSchema; simp [h]
  have h2 : tablesPresent (ensureSchema m s) = true := tablesPresent_ensureSchema m s
  rw [h1] at h2 ⊢
  unfold ensureSchema
  simp only [h2, Bool.not_true, Bool.false_eq_true, if_false]
  rw [repairColumns_ensureDefaultCategory, repairColumns_idem]
  exact ensureDefaultCategory_of_any n _
    (ensureDefaultCategory_db_categories_any m (repairColumns s))

theorem defaultCategoryCount_pos_of_any (cats : List Category)
    (h : (cats.any (fun c => c.name = defaultCategoryName)) = true) :
    (cats.filter (fun c => c.name = defaultCategoryName)).length ≠ 0 := by
  rw [List.any_eq_true] at h
  obtain ⟨c, hc, hp⟩ := h
  have hm : c ∈ cats.filter (fun c => c.name = defaultCategoryName) :=
    List.mem_filter.mpr ⟨hc, hp⟩
  intro hlen
  rw [List.length_eq_zero] at hlen
  rw [hlen] at hm
  exact List.not_mem_nil c hm

theorem defaultCategoryFilter_nil_of_not_any (cats : List Category)
    (h : ¬ (cats.any (fun c => c.name = defaultCategoryName)) = true) :
    cats.filter (fun c => c.name = defaultCategoryName) = [] := by
  rw [List.filter_eq_nil_iff]
  intro c hc
  intro hp
  exact h (List.any_eq_true.mpr ⟨c, hc, hp⟩)

theorem defaultCategoryCount_insertDefaultIgnore (now : Nat) (s : SchemaState)
    (h : defaultCategoryCount s ≤ 1) :
    defaultCategoryCount (insertDefaultIgnore now s) = 1 := by
  unfold defaultCategoryCount at h ⊢
  unfold insertDefaultIgnore
  by_cases hany : (s.db.categories.any (fun c => c.name = defaultCategoryName)) = true
  · rw [if_pos hany]
    have := defaultCategoryCount_pos_of_any s.db.categories hany
    omega
  · rw [if_neg hany]
    have h0 := defaultCategoryFilter_nil_of_not_any s.db.categories hany
    rw [List.filter_append, h0]
    simp

theorem defaultCategoryCount_ensureDefaultCategory (now : Nat) (s : SchemaState)
    (h : defaultCategoryCount s ≤ 1) :
    defaultCategoryCount (ensureDefaultCategory now s) = 1 := by
  unfold defaultCategoryCount at h ⊢
  unfold ensureDefaultCategory
  by_cases hany : (s.db.categories.any (fun c => c.name = defaultCategoryName)) = true
  · rw [if_pos hany]
    have := defaultCategoryCount_pos_of_any s.db.categories hany
    omega
  · rw [if_neg hany]
    have h0 := defaultCategoryFilter_nil_of_not_any s.db.categories hany
    rw [List.filter_append, h0]
    simp

theorem defaultCategoryCount_ensureSchema (now : Nat) (s : SchemaState)
    (h : defaultCategoryCount s ≤ 1) :
    defaultCategoryCount (ensureSchema now s) = 1 := by
  unfold ensureSchema
  split
  · exact defaultCategoryCount_insertDefaultIgnore now _ h
  · exact defaultCategoryCount_ensureDefaultCategory now _ h

/-- C5 (counterexample): the claim "calling the schema-initialization
routine N times is idempotent after the first successful call" fails on the
code.  Start from a database whose `categories` table exists but lacks the
`created_at` column while the `files` table is missing.  The first call
takes the rebuild-missing-tables path and returns early, never repairing
the `categories` columns; the second call then alters the `categories`
table structure, so the second call does not leave the structure
unchanged. -/
theorem schema_second_call_changes_structure :
    ensureSchema 0 (ensureSchema 0 schemaStateMixed) ≠ ensureSchema 0 schemaStateMixed := by
  decide

/-- C5 (amended): after the rebuild path the routine needs one more call to
stabilize: (a) from the second call on, further calls are identity (for any
N ≥ 2, N calls equal 2 calls); (b) when all three tables already exist, a
single call is already idempotent; (c) under the UNIQUE(name) constraint
(at most one category row named `默认分类`), every call from the first on
leaves exactly one default category. -/
theorem ensureSchema_stabilizes (s : SchemaState) (n₁ n₂ n₃ : Nat) (k : Nat)
    (h : defaultCategoryCount s ≤ 1) :
    ensureSchema n₃ (ensureSchema n₂ (ensureSchema n₁ s)) =
        ensureSchema n₂ (ensureSchema n₁ s)
      ∧ Nat.iterate (ensureSchema n₂) k (ensureSchema n₂ (ensureSchema n₁ s)) =
        ensureSchema n₂ (ensureSchema n₁ s)
      ∧ (tablesPresent s = true → ensureSchema n₂ (ensureSchema n₁ s) = ensureSchema n₁ s)
      ∧ defaultCategoryCount (ensureSchema n₁ s) = 1
      ∧ defaultCategoryCount (ensureSchema n₂ (ensureSchema n₁ s)) = 1 := by
  have hp1 : tablesPresent (ensureSchema n₁ s) = true := tablesPresent_ensureSchema n₁ s
  have hidem : ensureSchema n₃ (ensureSchema n₂ (ensureSchema n₁ s)) =
      ensureSchema n₂ (ensureSchema n₁ s) :=
    ensureSchema_present_idem n₃ n₂ (ensureSchema n₁ s) hp1
  have hc1 : defaultCategoryCount (ensureSchema n₁ s) = 1 :=
    defaultCategoryCount_ensureSchema n₁ s h
  refine ⟨hidem, ?_, ?_, hc1, ?_⟩
  · induction k with
    | zero => rfl
    | succ k ih =>
      rw [Function.iterate_succ_apply, ensureSchema_present_idem n₂ n₂ (ensureSchema n₁ s) hp1]
      exact ih
  · intro hpres
    exact ensureSchema_present_idem n₂ n₁ s hpres
  · exact defaultCategoryCount_ensureSchema n₂ _ (le_of_eq hc1)

/-- C5 witness: the amended theorem applied to the empty-structure state. -/
theorem ensureSchema_stabilizes_witness :
    defaultCategoryCount schemaStateEmpty ≤ 1
      ∧ ensureSchema 2 (ensureSchema 1 (ensureSchema 0 schemaStateEmpty)) =
        ensureSchema 1 (ensureSchema 0 schemaStateEmpty) :=
  ⟨by decide, (ensureSchema_stabilizes schemaStateEmpty 0 1 2 0 (by decide)).1⟩

/-- C1: the bot dialogue's awaiting-new-suffix reply (the
`waiting_for === 'new_suffix'` branch) does not keep `(url, file_name)`
consistent: renaming the chat-stored `old.jpg` to `new` updates the row's
url to `https://d/new.jpg` while `file_name` stays `old.jpg`, contradicting
the spec's (and the source's own "BUG 3 FIX" comments') intent that the
fields be updated together. -/
theorem bot_new_suffix_rename_divergence :
    ((handleTelegramWebhook cfgFix 50 envFix worldNewSuffix
        (TgUpdate.message "1" "private" (textMessage "new"))).1.db.files.map
      (fun f => (f.url, f.file_name))) =
      [("https://d/new.jpg", some "old.jpg")] := by
  decide

/-- C2 (counterexample): with `waiting_for = edit_suffix_input_file`,
sending `/start` renders the menu but does not transition the dialogue
state to Idle: `waiting_for` is left untouched. -/
theorem start_keeps_edit_suffix_state :
    ((handleTelegramWebhook cfgFix 50 envFix worldEditFile
        (TgUpdate.message "1" "private" (textMessage "/start"))).1.db.userSettings.map
      (fun u => u.waiting_for)) = [some "edit_suffix_input_file"] ∧
    (handleTelegramWebhook cfgFix 50 envFix worldEditFile
        (TgUpdate.message "1" "private" (textMessage "/start"))).2 =
      [Effect.sendPanel "1"] := by
  constructor <;> decide

/-- C3 (counterexample): resolving the token `x.bin` on the bot delete
path skips the raw backend-reference step: file 1 has `fileId = x.bin`
(which the claimed precedence would match second, before any filename
match), yet the handler deletes file 2 (whose `file_name` is `x.bin`) and
leaves file 1 in place. -/
theorem bot_delete_ignores_backend_reference :
    fileRefXbin.fileId = some "x.bin" ∧
    ((handleTelegramWebhook cfgFix 50 envFix worldDeletePair
        (TgUpdate.message "1" "private" (textMessage "x.bin"))).1.db.files.map
      (fun f => f.id)) = [1] := by
  constructor <;> decide

/-- C7 (counterexample): the bulk remark endpoint reports no per-item
partial success: with `u-missing` matching no row, the response is
byte-identical to the response of the call without it. -/
theorem bulk_remark_reports_no_per_item :
    findFileByUrl (mkWorld [] [fileAjpg]).db.files "https://d/u-missing" = none ∧
    (handleUpdateRemarkRequest (mkWorld [] [fileAjpg]).db
        ["https://d/a.jpg", "https://d/u-missing"] "r").1 =
      (handleUpdateRemarkRequest (mkWorld [] [fileAjpg]).db ["https://d/a.jpg"] "r").1 := by
  constructor <;> decide

/-- C8 (counterexample): the admin delete endpoint does not invalidate the
file-serving cache: after deleting `a.jpg` through `/delete`, the
`file:a.jpg` cache entry survives and a GET within the TTL window serves
the deleted content from the cache. -/
theorem admin_delete_serves_stale_cache :
    ((handleDeleteRequest cfgFix worldCached (some "https://d/a.jpg") none).2.1.fileCache.map
      (fun kv => kv.1)) = ["file:a.jpg"] ∧
    ((handleDeleteRequest cfgFix worldCached (some "https://d/a.jpg") none).2.1.db.files = []) ∧
    (handleFileRequest cfgFix
        (handleDeleteRequest cfgFix worldCached (some "https://d/a.jpg") none).2.1
        10 "a.jpg").1 =
      ServeOutcome.ok (StoredResp.fromBucket "a.jpg" 42) true := by
  refine ⟨by decide, by decide, by decide⟩

/-- C9 (counterexample): a group-chat message whose chat id is not in the
allowed list is dropped before the authorization check: no unauthorized
notice is sent (the claim asserts one always is). -/
theorem group_message_gets_no_notice :
    cfgFix.tgChatId = ["1"] ∧
    handleTelegramWebhook cfgFix 50 envFix worldEditFile
        (TgUpdate.message "999" "group" (textMessage "hi")) =
      (worldEditFile, []) := by
  constructor <;> decide

/-- C10: a rename through `/update-suffix` whose proposed file name
collides with another row's `fileId`, or whose proposed URL collides with
another row's `url`, is rejected with `status 0` and leaves the database,
the object store and the chat store untouched, with no storage effect
issued. -/
theorem update_suffix_conflict_rejected (cfg : Config) (w : World)
    (url suffix : String) (fileRecord : FileRow)
    (hurl : url ≠ "") (hsuf : suffix ≠ "")
    (hrec : findFileByUrl w.db.files url = some fileRecord)
    (hconf :
      (w.db.files.any (fun f =>
        f.fileId = some (suffix ++ "." ++ lastExt (getFileName url)) &&
        f.id ≠ fileRecord.id)) = true ∨
      (w.db.files.any (fun f =>
        f.url = "https://" ++ cfg.domain ++ "/" ++
          (suffix ++ "." ++ lastExt (getFileName url)) &&
        f.id ≠ fileRecord.id)) = true) :
    (handleUpdateSuffixRequest cfg w url suffix).1.status = 0 ∧
    (handleUpdateSuffixRequest cfg w url suffix).2.1 = w ∧
    (handleUpdateSuffixRequest cfg w url suffix).2.2 = [] := by
  unfold handleUpdateSuffixRequest
  simp only [List.any_eq_true, Bool.and_eq_true, decide_eq_true_eq] at hconf
  rcases hconf with hc | hc
  · simp [hurl, hsuf, hrec, hc]
  · by_cases h1 : ∃ x ∈ w.db.files,
        x.fileId = some (suffix ++ "." ++ lastExt (getFileName url)) ∧
        ¬x.id = fileRecord.id
    · simp [hurl, hsuf, hrec, h1]
    · simp [hurl, hsuf, hrec, h1, hc]

/-- C10 witness: renaming `a.jpg` to `c` collides with the `c.jpg` row. -/
theorem update_suffix_conflict_rejected_witness :
    (handleUpdateSuffixRequest cfgFix worldConflict "https://d/a.jpg" "c").1.status = 0 ∧
    (handleUpdateSuffixRequest cfgFix worldConflict "https://d/a.jpg" "c").2.1 = worldConflict ∧
    (handleUpdateSuffixRequest cfgFix worldConflict "https://d/a.jpg" "c").2.2 = [] :=
  update_suffix_conflict_rejected cfgFix worldConflict "https://d/a.jpg" "c" fileAjpg
    (by decide) (by decide) (by decide) (Or.inl (by decide))

/-- C4: an upload whose reported content length (bot media path) or file
size (web form path) exceeds the `maxSizeMB` ceiling is rejected — with a
failure message resp. a `status 0` response — before any backend write: the
world (database rows, bucket, chat store) is returned unchanged and the
effect list contains no `bucketPut`/`tgStoreSend`. -/
theorem upload_size_ceiling_rejects (cfg : Config) (now : Nat) (env : MediaEnv)
    (w : World) (chatId : String) (file : MediaFile) (us : UserSetting)
    (wf : WebFile) (categoryId : Option Nat) (st : String) (n : Nat)
    (hok1 : env.getFileOk = true) (hok2 : env.fetchOk = true)
    (hn : env.contentLength = some n) (hbig : cfg.maxSizeMB * 1024 * 1024 < n)
    (hwf : cfg.maxSizeMB * 1024 * 1024 < wf.size) :
    handleMediaUpload cfg now env w chatId file us =
      (w, [Effect.sendMessage chatId "⏳ 正在处理您的文件，请稍候...",
           Effect.deleteProcessingMessage,
           Effect.sendMessage chatId
             ("❌ 文件超过" ++ toString cfg.maxSizeMB ++ "MB限制")]) ∧
    handleUploadRequest cfg now env w (some wf) categoryId st =
      ({ status := 0, msg := "✘ 上传失败", url := none,
         error := some ("文件超过" ++ toString cfg.maxSizeMB ++ "MB限制") }, w, []) := by
  constructor
  · unfold handleMediaUpload
    simp [hok1, hok2, hn, hbig]
  · unfold handleUploadRequest
    simp [hwf]

/-- C4 witness: a 25 MB upload against the default 20 MB ceiling. -/
theorem upload_size_ceiling_rejects_witness :
    handleMediaUpload cfgFix 50
        { envFix with contentLength := some (25 * 1024 * 1024) }
        worldEditFile "1" { file_id := "p1", file_name := none, mime_type := none }
        (usWaiting none none) =
      (worldEditFile, [Effect.sendMessage "1" "⏳ 正在处理您的文件，请稍候...",
        Effect.deleteProcessingMessage,
        Effect.sendMessage "1" "❌ 文件超过20MB限制"]) ∧
    handleUploadRequest cfgFix 50 envFix worldEditFile
        (some { name := "a.png", size := 25 * 1024 * 1024, declaredType := "",
                content := 1 }) none "r2" =
      ({ status := 0, msg := "✘ 上传失败", url := none,
         error := some "文件超过20MB限制" }, worldEditFile, []) := by
  have h := upload_size_ceiling_rejects cfgFix 50
    { envFix with contentLength := some (25 * 1024 * 1024) }
    worldEditFile "1" { file_id := "p1", file_name := none, mime_type := none }
    (usWaiting none none)
    { name := "a.png", size := 25 * 1024 * 1024, declaredType := "", content := 1 }
    none "r2" (25 * 1024 * 1024) (by decide) (by decide) (by decide) (by decide) (by decide)
  exact h

/-- C9 (amended): for private-chat messages and callback queries whose
chat id is outside the non-empty allowed list, the webhook performs no
state change at all (no user-settings row, no dialogue transition, no file,
no cache or backend write) and, with a bot token configured, only sends the
unauthorized notice; group/supergroup messages are dropped even earlier
with no notice (see the counterexample). -/
theorem unauthorized_chat_no_state_change (cfg : Config) (now : Nat) (env : MediaEnv)
    (w : World) (chatId chatType : String) (msg : TgMessage) (cbData : String)
    (hne : cfg.tgChatId ≠ [])
    (hnc : cfg.tgChatId.contains chatId = false)
    (htok : cfg.tgBotToken ≠ "")
    (hg1 : chatType ≠ "group") (hg2 : chatType ≠ "supergroup") :
    handleTelegramWebhook cfg now env w (TgUpdate.message chatId chatType msg) =
      (w, [Effect.sendMessage chatId "你无权使用 请联系管理员授权"]) ∧
    handleTelegramWebhook cfg now env w (TgUpdate.callbackQuery chatId cbData) =
      (w, [Effect.sendMessage chatId "你无权使用 请联系管理员授权"]) := by
  have hmem : chatId ∉ cfg.tgChatId := by simpa using hnc
  constructor <;>
  · simp [handleTelegramWebhook, hg1, hg2, hnc, htok, List.isEmpty_iff, hne]
    intro h
    exact absurd h hmem

/-- C9 witness: the amended theorem at the concrete disallowed chat 999. -/
theorem unauthorized_chat_no_state_change_witness :
    handleTelegramWebhook cfgFix 50 envFix worldEditFile
        (TgUpdate.message "999" "private" (textMessage "hi")) =
      (worldEditFile, [Effect.sendMessage "999" "你无权使用 请联系管理员授权"]) ∧
    handleTelegramWebhook cfgFix 50 envFix worldEditFile
        (TgUpdate.callbackQuery "999" "switch_storage") =
      (worldEditFile, [Effect.sendMessage "999" "你无权使用 请联系管理员授权"]) :=
  unauthorized_chat_no_state_change cfgFix 50 envFix worldEditFile "999" "private"
    (textMessage "hi") "switch_storage" (by decide) (by decide) (by decide)
    (by decide) (by decide)

/-- C2 (amended): `/start` renders the main menu and leaves every piece of
state (including `waiting_for`/`editing_file_id`) unchanged whenever no
consuming expectation is pending — i.e. `waiting_for` is not
`new_category`, not `delete_file_input`, and not `new_suffix` with a file
being edited; in particular from Idle it stays Idle.  When such an
expectation is pending the text is consumed by it instead: concretely, in
the `new_category` state `/start` creates a category literally named
`/start`. -/
theorem start_renders_menu_unless_consumed (cfg : Config) (now : Nat)
    (env : MediaEnv) (w : World) (chatId : String) (us : UserSetting)
    (hauth : cfg.tgChatId.contains chatId = true)
    (hfound : findUserSetting w.db chatId = some us)
    (hnc : us.waiting_for ≠ some "new_category")
    (hns : us.waiting_for ≠ some "new_suffix" ∨ us.editing_file_id = none)
    (hdf : us.waiting_for ≠ some "delete_file_input") :
    handleTelegramWebhook cfg now env w
        (TgUpdate.message chatId "private" (textMessage "/start")) =
      (w, [Effect.sendPanel chatId]) ∧
    ((handleTelegramWebhook cfgFix 50 envFix worldNewCategory
        (TgUpdate.message "1" "private" (textMessage "/start"))).1.db.categories.map
      (fun c => c.name)) = [defaultCategoryName, "/start"] := by
  constructor
  · unfold handleTelegramWebhook ensureUserSetting
    simp only [hauth, hfound]
    unfold handleMessage
    rcases hns with hns | hns
    · simp [textMessage, strTruthy, hasExplicitMedia, hnc, hns, hdf]
    · simp [textMessage, strTruthy, hasExplicitMedia, hnc, hns, hdf]
  · decide

/-- C2 witness: the amended theorem at an Idle chat. -/
theorem start_renders_menu_unless_consumed_witness :
    handleTelegramWebhook cfgFix 50 envFix (mkWorld [usWaiting none none] [fileOldJpg])
        (TgUpdate.message "1" "private" (textMessage "/start")) =
      (mkWorld [usWaiting none none] [fileOldJpg], [Effect.sendPanel "1"]) :=
  (start_renders_menu_unless_consumed cfgFix 50 envFix
    (mkWorld [usWaiting none none] [fileOldJpg]) "1" (usWaiting none none)
    (by decide) (by decide) (by decide) (Or.inr (by decide)) (by decide)).1

theorem find?_filter_ne (l : List (String × CachedFile)) (key : String) :
    (l.filter (fun kv => kv.1 ≠ key)).find? (fun kv => kv.1 = key) = none := by
  apply List.find?_eq_none.mpr
  intro kv hkv
  have h := (List.mem_filter.mp hkv).2
  simp only [decide_eq_true_eq] at h ⊢
  exact h

theorem deleteMultipleStep_fileCache (cfg : Config)
    (st : World × List Effect × DeleteMultipleResp) (url : String) :
    (deleteMultipleStep cfg st url).1.fileCache = st.1.fileCache := by
  simp only [deleteMultipleStep]
  repeat' split
  all_goals rfl

theorem deleteMultiple_foldl_fileCache (cfg : Config) (urls : List String) :
    ∀ st : World × List Effect × DeleteMultipleResp,
      ((urls.foldl (deleteMultipleStep cfg) st).1.fileCache = st.1.fileCache) := by
  induction urls with
  | nil => intro st; rfl
  | cons u rest ih =>
    intro st
    rw [List.foldl_cons, ih, deleteMultipleStep_fileCache]

theorem handleUpdateSuffixRequest_fileCache (cfg : Config) (w : World)
    (url suffix : String) :
    (handleUpdateSuffixRequest cfg w url suffix).2.1.fileCache = w.fileCache := by
  simp only [handleUpdateSuffixRequest]
  repeat' split
  all_goals rfl

theorem handleDeleteRequest_fileCache (cfg : Config) (w : World)
    (idArg fileIdArg : Option String) :
    (handleDeleteRequest cfg w idArg fileIdArg).2.1.fileCache = w.fileCache := by
  simp only [handleDeleteRequest]
  repeat' split
  all_goals rfl

/-- C8 (amended): only the bot dialogue's delete branch invalidates the
serving cache, and only under the file's display-name key; the admin
`/delete`, `/update-suffix` and `/delete-multiple` handlers never touch the
`fileCache`, so within the TTL a previously memoized key keeps serving the
deleted or pre-rename content (see the counterexample). -/
theorem cache_invalidation_by_path (cfg : Config) (w w1 : World)
    (chatId url suffix : String) (idArg fileIdArg : Option String)
    (urls : List String) (f : FileRow) :
    ((botDeleteFileInput.botDeleteResolved cfg w1 chatId (some f)).1.fileCache.find?
      (fun kv => kv.1 = "file:" ++ displayFileName f)) = none ∧
    (handleDeleteRequest cfg w idArg fileIdArg).2.1.fileCache = w.fileCache ∧
    (handleUpdateSuffixRequest cfg w url suffix).2.1.fileCache = w.fileCache ∧
    (handleDeleteMultipleRequest cfg w urls).2.1.fileCache = w.fileCache := by
  refine ⟨?_, handleDeleteRequest_fileCache cfg w idArg fileIdArg,
    handleUpdateSuffixRequest_fileCache cfg w url suffix, ?_⟩
  · simp only [botDeleteFileInput.botDeleteResolved]
    repeat' split
    all_goals exact find?_filter_ne _ _
  · unfold handleDeleteMultipleRequest
    split
    · rfl
    · exact deleteMultiple_foldl_fileCache cfg urls _

theorem updateRemark_foldl (remark : String) (urls : List String) :
    ∀ db : Db, urls.foldl (updateRemarkStmt remark) db =
      { db with files := db.files.map (fun f =>
          if urls.contains f.url then { f with remark := some remark } else f) } := by
  induction urls with
  | nil =>
    intro db
    simp
  | cons u rest ih =>
    intro db
    rw [List.foldl_cons, ih]
    unfold updateRemarkStmt
    congr 1
    rw [List.map_map]
    apply List.map_congr_left
    intro f _
    by_cases hf : f.url = u
    · by_cases hr : rest.contains f.url <;> simp [Function.comp, hf, hr]
    · by_cases hr : rest.contains f.url <;> simp [Function.comp, hf, hr]

theorem changeCategory_foldl (catId : Option Nat) (urls : List String) :
    ∀ db : Db, urls.foldl (changeCategoryStmt catId) db =
      { db with files := db.files.map (fun f =>
          if urls.contains f.url then { f with category_id := catId } else f) } := by
  induction urls with
  | nil =>
    intro db
    simp
  | cons u rest ih =>
    intro db
    rw [List.foldl_cons, ih]
    unfold changeCategoryStmt
    congr 1
    rw [List.map_map]
    apply List.map_congr_left
    intro f _
    by_cases hf : f.url = u
    · by_cases hr : rest.contains f.url <;> simp [Function.comp, hf, hr]
    · by_cases hr : rest.contains f.url <;> simp [Function.comp, hf, hr]

theorem deleteMultipleStep_counts (cfg : Config)
    (st : World × List Effect × DeleteMultipleResp) (url : String) :
    (deleteMultipleStep cfg st url).2.2.successList.length +
      (deleteMultipleStep cfg st url).2.2.failedList.length =
    st.2.2.successList.length + st.2.2.failedList.length + 1 := by
  simp only [deleteMultipleStep]
  repeat' split
  all_goals simp [Nat.add_assoc, Nat.add_comm, Nat.add_left_comm]

theorem deleteMultiple_foldl_counts (cfg : Config) (urls : List String) :
    ∀ st : World × List Effect × DeleteMultipleResp,
      (urls.foldl (deleteMultipleStep cfg) st).2.2.successList.length +
        (urls.foldl (deleteMultipleStep cfg) st).2.2.failedList.length =
      st.2.2.successList.length + st.2.2.failedList.length + urls.length := by
  induction urls with
  | nil => intro st; simp
  | cons u rest ih =>
    intro st
    rw [List.foldl_cons, ih, deleteMultipleStep_counts]
    simp [Nat.add_assoc, Nat.add_comm, Nat.add_left_comm]

/-- C7 (amended): the three bulk operations apply independent per-row
statements, so a nonexistent URL in the list is a harmless no-op (the
matching rows are still all updated and no error is raised), but only
`/delete-multiple` reports per item (every url lands in exactly one of its
success/failed lists); the remark and category bulk updates are submitted
as one `database.batch` and answer with a single aggregate success message
carrying no per-item information (see the counterexample). -/
theorem bulk_ops_independent_rows (db : Db) (urls : List String) (remark : String)
    (catId : Option Nat) (cfg : Config) (w : World)
    (hne : urls ≠ []) :
    (handleUpdateRemarkRequest db urls remark).1.status = 1 ∧
    (handleUpdateRemarkRequest db urls remark).2.files =
      db.files.map (fun f =>
        if urls.contains f.url then { f with remark := some remark } else f) ∧
    (handleChangeCategoryRequest db urls catId).1.status = 1 ∧
    (handleChangeCategoryRequest db urls catId).2.files =
      db.files.map (fun f =>
        if urls.contains f.url then
          { f with category_id :=
              match catId with
              | some c => if c = 0 then none else some c
              | none => none }
        else f) ∧
    (handleDeleteMultipleRequest cfg w urls).1.successList.length +
      (handleDeleteMultipleRequest cfg w urls).1.failedList.length = urls.length := by
  have hni : urls.isEmpty = false := by
    cases urls with
    | nil => exact absurd rfl hne
    | cons a l => rfl
  refine ⟨?_, ?_, ?_, ?_, ?_⟩
  · simp [handleUpdateRemarkRequest, hni]
  · simp [handleUpdateRemarkRequest, hni, updateRemark_foldl]
  · simp [handleChangeCategoryRequest, hni]
  · simp only [handleChangeCategoryRequest, hni, Bool.false_eq_true, if_false,
      changeCategory_foldl]
  · simp only [handleDeleteMultipleRequest, hni, Bool.false_eq_true, if_false]
    have h := deleteMultiple_foldl_counts cfg urls
      (w, ([] : List Effect), { status := 1, successList := [], failedList := [] })
    simpa using h

/-- C7 witness: the amended theorem at a two-url batch with one missing
url. -/
theorem bulk_ops_independent_rows_witness :
    (handleUpdateRemarkRequest (mkWorld [] [fileAjpg]).db
        ["https://d/a.jpg", "https://d/u-missing"] "r").1.status = 1 ∧
    (handleDeleteMultipleRequest cfgFix (mkWorld [] [fileAjpg])
        ["https://d/a.jpg", "https://d/u-missing"]).1.successList.length +
      (handleDeleteMultipleRequest cfgFix (mkWorld [] [fileAjpg])
        ["https://d/a.jpg", "https://d/u-missing"]).1.failedList.length = 2 := by
  have h := bulk_ops_independent_rows (mkWorld [] [fileAjpg]).db
    ["https://d/a.jpg", "https://d/u-missing"] "r" none cfgFix
    (mkWorld [] [fileAjpg]) (by decide)
  exact ⟨h.1, h.2.2.2.2⟩

theorem pickLatest_foldl (l : List FileRow) :
    ∀ (a : Option FileRow) (g : FileRow), l.foldl pickLatest a = some g →
      (g ∈ l ∨ a = some g) ∧ (∀ x ∈ l, x.created_at ≤ g.created_at) ∧
      (∀ b, a = some b → b.created_at ≤ g.created_at) := by
  induction l with
  | nil =>
    intro a g h
    exact ⟨Or.inr h, by simp, fun b hb => by rw [hb] at h; cases h; exact Nat.le_refl _⟩
  | cons x rest ih =>
    intro a g h
    rw [List.foldl_cons] at h
    obtain ⟨hmem, hbound, hacc⟩ := ih (pickLatest a x) g h
    have hx : x.created_at ≤ g.created_at ∧ (∀ b, a = some b → b.created_at ≤ g.created_at) := by
      cases a with
      | none =>
        have : pickLatest none x = some x := rfl
        constructor
        · exact hacc x this
        · intro b hb; cases hb
      | some b =>
        by_cases hlt : b.created_at < x.created_at
        · have hpx : pickLatest (some b) x = some x := by simp [pickLatest, hlt]
          refine ⟨hacc x hpx, ?_⟩
          intro c hc
          cases hc
          exact Nat.le_of_lt (Nat.lt_of_lt_of_le hlt (hacc x hpx))
        · have hpb : pickLatest (some b) x = some b := by simp [pickLatest, hlt]
          have hble := hacc b hpb
          refine ⟨Nat.le_trans (Nat.le_of_not_lt hlt) hble, ?_⟩
          intro c hc
          cases hc
          exact hble
    refine ⟨?_, ?_, hx.2⟩
    · rcases hmem with hm | hm
      · exact Or.inl (List.mem_cons_of_mem x hm)
      · cases a with
        | none =>
          have : pickLatest none x = some x := rfl
          rw [this] at hm
          cases hm
          exact Or.inl (List.mem_cons_self x rest)
        | some b =>
          by_cases hlt : b.created_at < x.created_at
          · have hpx : pickLatest (some b) x = some x := by simp [pickLatest, hlt]
            rw [hpx] at hm
            cases hm
            exact Or.inl (List.mem_cons_self x rest)
          · have hpb : pickLatest (some b) x = some b := by simp [pickLatest, hlt]
            rw [hpb] at hm
            exact Or.inr hm
    · intro y hy
      rcases List.mem_cons.mp hy with hyx | hyr
      · rw [hyx]; exact hx.1
      · exact hbound y hyr

theorem findLatest_spec (files : List FileRow) (p : FileRow → Bool) (g : FileRow)
    (h : findLatest files p = some g) :
    g ∈ files ∧ p g = true ∧
      ∀ x ∈ files, p x = true → x.created_at ≤ g.created_at := by
  unfold findLatest at h
  obtain ⟨hmem, hbound, _⟩ := pickLatest_foldl (files.filter p) none g h
  have hg : g ∈ files.filter p := by
    rcases hmem with hm | hm
    · exact hm
    · cases hm
  refine ⟨(List.mem_filter.mp hg).1, (List.mem_filter.mp hg).2, ?_⟩
  intro x hx hpx
  exact hbound x (List.mem_filter.mpr ⟨hx, hpx⟩)

/-- C3 (amended): the lookup precedence depends on the path.  Public file
serving resolves exact URL first, then raw backend reference, then file
name — with the file-name step returning the first row in table order, not
the most recently created.  The bot's delete/rename text inputs instead
resolve exact URL (chat-scoped) and otherwise a filename / url-suffix match
in which the most-recently-created row does win (the `findLatest` facts
below); they never consult the raw backend reference (see the
counterexample). -/
theorem lookup_precedence_by_path (files : List FileRow) (domain path : String)
    (f g : FileRow) (p : FileRow → Bool) :
    (findFileByUrl files ("https://" ++ domain ++ "/" ++ path) = some f →
      resolveDbFile files domain path = some f) ∧
    (findFileByUrl files ("https://" ++ domain ++ "/" ++ path) = none →
      findFileByFileId files path = some f →
      resolveDbFile files domain path = some f) ∧
    (findFileByUrl files ("https://" ++ domain ++ "/" ++ path) = none →
      findFileByFileId files path = none →
      resolveDbFile files domain path =
        findFileByName files ((splitOnChar '/' path).getLastD path)) ∧
    (findLatest files p = some g →
      g ∈ files ∧ p g = true ∧
        ∀ x ∈ files, p x = true → x.created_at ≤ g.created_at) := by
  refine ⟨?_, ?_, ?_, findLatest_spec files p g⟩
  · intro h
    simp [resolveDbFile, h]
  · intro h1 h2
    simp [resolveDbFile, h1, h2]
  · intro h1 h2
    simp [resolveDbFile, h1, h2]

/-- C3 witness: the amended precedence facts at the `x.bin` fixtures. -/
theorem lookup_precedence_by_path_witness :
    resolveDbFile [fileRefXbin, fileNameXbin] "d" "x.bin" = some fileRefXbin ∧
    fileNameXbin ∈ [fileRefXbin, fileNameXbin] := by
  have h := lookup_precedence_by_path [fileRefXbin, fileNameXbin] "d" "x.bin"
    fileRefXbin fileNameXbin
    (fun fr => (fr.file_name = some "x.bin" || strEndsWith fr.url "/x.bin") &&
      fr.chat_id = "1")
  exact ⟨h.2.1 (by decide) (by decide),
    ((h.2.2.2 (by decide)).1)⟩

/-- C6: the default category can never be deleted (a request naming it is
rejected with the state unchanged); deleting any other existing category
re-points every file row and every user-settings pointer that referenced
the deleted category to `dId` — the id of a surviving category named
`默认分类` (the default) — leaving all other rows untouched, so no row
still references the deleted id and a database with no dangling
`category_id` still has none after the deletion. -/
theorem delete_category_safety (now : Nat) (db : Db) (i : Nat)
    (hi : i ≠ 0)
    (hfresh : ∀ c ∈ db.categories, c.id < db.nextCategoryId) :
    ((db.categories.find? (fun c => c.id = i && c.name = defaultCategoryName)).isSome →
      handleDeleteCategoryRequest now db (some i) =
        ({ status := 0, msg := "默认分类不能删除" }, db)) ∧
    ((db.categories.find? (fun c => c.id = i && c.name = defaultCategoryName)) = none →
      ∀ cat, findCategoryById db.categories i = some cat →
        ∃ dId,
          dId ≠ i ∧
          (∃ d ∈ (handleDeleteCategoryRequest now db (some i)).2.categories,
            d.id = dId ∧ d.name = defaultCategoryName) ∧
          (handleDeleteCategoryRequest now db (some i)).2.files =
            db.files.map (fun f =>
              if f.category_id = some i then { f with category_id := some dId } else f) ∧
          (handleDeleteCategoryRequest now db (some i)).2.userSettings =
            db.userSettings.map (fun u =>
              if u.current_category_id = some i then
                { u with current_category_id := some dId } else u) ∧
          (findCategoryById (handleDeleteCategoryRequest now db (some i)).2.categories
            dId).isSome ∧
          (handleDeleteCategoryRequest now db (some i)).2.files.length = db.files.length ∧
          (∀ f ∈ (handleDeleteCategoryRequest now db (some i)).2.files,
            f.category_id ≠ some i) ∧
          (∀ u ∈ (handleDeleteCategoryRequest now db (some i)).2.userSettings,
            u.current_category_id ≠ some i) ∧
          ((∀ f ∈ db.files, ∀ c, f.category_id = some c →
              (findCategoryById db.categories c).isSome) →
            ∀ f ∈ (handleDeleteCategoryRequest now db (some i)).2.files, ∀ c,
              f.category_id = some c →
              (findCategoryById
                (handleDeleteCategoryRequest now db (some i)).2.categories c).isSome)) := by
  constructor
  · intro hdef
    unfold handleDeleteCategoryRequest
    simp [hi, hdef]
  · intro hnone cat hcat
    have hcatmem : cat ∈ db.categories := List.mem_of_find?_eq_some hcat
    have hcati : cat.id = i := by
      have := List.find?_some hcat
      simpa using this
    have hiLt : i < db.nextCategoryId := hcati ▸ hfresh cat hcatmem
    -- the post-state, by cases on whether the default category already exists
    cases hd : findCategoryByName db.categories defaultCategoryName with
    | some d =>
      have hdmem : d ∈ db.categories := List.mem_of_find?_eq_some hd
      have hdname : d.name = defaultCategoryName := by
        have := List.find?_some hd
        simpa using this
      have hdne : d.id ≠ i := by
        intro he
        have hnp := List.find?_eq_none.mp hnone d hdmem
        apply hnp
        simp [he, hdname]
      have hout : (handleDeleteCategoryRequest now db (some i)).2 =
          { db with
            categories := (db.categories.filter (fun c => c.id ≠ i))
            files := db.files.map (fun f =>
              if f.category_id = some i then { f with category_id := some d.id } else f)
            userSettings := db.userSettings.map (fun u =>
              if u.current_category_id = some i then
                { u with current_category_id := some d.id } else u) } := by
        unfold handleDeleteCategoryRequest
        simp [hi, hnone, hcat, hd]
      refine ⟨d.id, hdne, ?_, ?_, ?_, ?_, ?_, ?_, ?_, ?_⟩
      · rw [hout]
        exact ⟨d, List.mem_filter.mpr ⟨hdmem, by simp [hdne]⟩, rfl, hdname⟩
      · rw [hout]
      · rw [hout]
      · rw [hout]
        apply List.find?_isSome.mpr
        refine ⟨d, List.mem_filter.mpr ⟨hdmem, by simp [hdne]⟩, by simp⟩
      · rw [hout]; simp
      · rw [hout]
        intro f hf
        obtain ⟨f0, hf0, hfe⟩ := List.mem_map.mp hf
        by_cases hc : f0.category_id = some i
        · rw [← hfe]
          simp [hc]
          intro he
          exact hdne he
        · rw [← hfe]
          simp [hc]
      · rw [hout]
        intro u hu
        obtain ⟨u0, hu0, hue⟩ := List.mem_map.mp hu
        by_cases hc : u0.current_category_id = some i
        · rw [← hue]
          simp [hc]
          intro he
          exact hdne he
        · rw [← hue]
          simp [hc]
      · intro hnod f hf c hfc
        rw [hout] at hf ⊢
        obtain ⟨f0, hf0, hfe⟩ := List.mem_map.mp hf
        by_cases hc0 : f0.category_id = some i
        · have : f.category_id = some d.id := by rw [← hfe]; simp [hc0]
          rw [this] at hfc
          cases hfc
          apply List.find?_isSome.mpr
          refine ⟨d, List.mem_filter.mpr ⟨hdmem, by simp [hdne]⟩, by simp⟩
        · have hfc0 : f0.category_id = some c := by
            rw [← hfe] at hfc
            simpa [hc0] using hfc
          have hres := hnod f0 hf0 c hfc0
          obtain ⟨cc, hccfind⟩ := Option.isSome_iff_exists.mp hres
          have hccmem : cc ∈ db.categories := List.mem_of_find?_eq_some hccfind
          have hccid : cc.id = c := by
            have := List.find?_some hccfind
            simpa using this
          have hcne : c ≠ i := by
            intro he
            apply hc0
            rw [hfc0, he]
          apply List.find?_isSome.mpr
          refine ⟨cc, List.mem_filter.mpr ⟨hccmem, by simp [hccid, hcne]⟩,
            by simp [hccid]⟩
    | none =>
      have hdne : db.nextCategoryId ≠ i := fun he => absurd hiLt (he ▸ Nat.lt_irrefl i)
      have hout : (handleDeleteCategoryRequest now db (some i)).2 =
          { db with
            categories :=
              ((db.categories ++ [newDefaultRow now db.nextCategoryId]).filter
                (fun c => c.id ≠ i))
            files := db.files.map (fun f =>
              if f.category_id = some i then
                { f with category_id := some db.nextCategoryId } else f)
            userSettings := db.userSettings.map (fun u =>
              if u.current_category_id = some i then
                { u with current_category_id := some db.nextCategoryId } else u)
            nextCategoryId := db.nextCategoryId + 1 } := by
        unfold handleDeleteCategoryRequest
        simp [hi, hnone, hcat, hd, newDefaultRow]
      have hdmem : newDefaultRow now db.nextCategoryId ∈
          db.categories ++ [newDefaultRow now db.nextCategoryId] := by
        simp
      refine ⟨db.nextCategoryId, hdne, ?_, ?_, ?_, ?_, ?_, ?_, ?_, ?_⟩
      · rw [hout]
        exact ⟨newDefaultRow now db.nextCategoryId,
          List.mem_filter.mpr ⟨hdmem, by simp [hdne, newDefaultRow]⟩, rfl, rfl⟩
      · rw [hout]
      · rw [hout]
      · rw [hout]
        apply List.find?_isSome.mpr
        exact ⟨_, List.mem_filter.mpr ⟨hdmem, by simp [hdne, newDefaultRow]⟩,
          by simp [newDefaultRow]⟩
      · rw [hout]; simp
      · rw [hout]
        intro f hf
        obtain ⟨f0, hf0, hfe⟩ := List.mem_map.mp hf
        by_cases hc : f0.category_id = some i
        · rw [← hfe]
          simp [hc]
          intro he
          exact hdne he
        · rw [← hfe]
          simp [hc]
      · rw [hout]
        intro u hu
        obtain ⟨u0, hu0, hue⟩ := List.mem_map.mp hu
        by_cases hc : u0.current_category_id = some i
        · rw [← hue]
          simp [hc]
          intro he
          exact hdne he
        · rw [← hue]
          simp [hc]
      · intro hnod f hf c hfc
        rw [hout] at hf ⊢
        obtain ⟨f0, hf0, hfe⟩ := List.mem_map.mp hf
        by_cases hc0 : f0.category_id = some i
        · have : f.category_id = some db.nextCategoryId := by rw [← hfe]; simp [hc0]
          rw [this] at hfc
          cases hfc
          apply List.find?_isSome.mpr
          exact ⟨_, List.mem_filter.mpr ⟨hdmem, by simp [hdne, newDefaultRow]⟩,
            by simp [newDefaultRow]⟩
        · have hfc0 : f0.category_id = some c := by
            rw [← hfe] at hfc
            simpa [hc0] using hfc
          have hres := hnod f0 hf0 c hfc0
          obtain ⟨cc, hccfind⟩ := Option.isSome_iff_exists.mp hres
          have hccmem : cc ∈ db.categories := List.mem_of_find?_eq_some hccfind
          have hccid : cc.id = c := by
            have := List.find?_some hccfind
            simpa using this
          have hcne : c ≠ i := by
            intro he
            apply hc0
            rw [hfc0, he]
          apply List.find?_isSome.mpr
          refine ⟨cc, List.mem_filter.mpr ⟨List.mem_append_left _ hccmem,
            by simp [hccid, hcne]⟩, by simp [hccid]⟩

/-- C6 witness: both limbs of the safety theorem at a two-category
database — deleting the default (id 1) is rejected unchanged, and deleting
`Photos` (id 2) re-points its file and user pointer to a surviving default
category. -/
theorem delete_category_safety_witness :
    (handleDeleteCategoryRequest 99 dbTwoCats (some 1) =
      ({ status := 0, msg := "默认分类不能删除" }, dbTwoCats)) ∧
    (∃ dId, dId ≠ 2 ∧
      (∃ d ∈ (handleDeleteCategoryRequest 99 dbTwoCats (some 2)).2.categories,
        d.id = dId ∧ d.name = defaultCategoryName) ∧
      (handleDeleteCategoryRequest 99 dbTwoCats (some 2)).2.files =
        dbTwoCats.files.map (fun f =>
          if f.category_id = some 2 then { f with category_id := some dId } else f) ∧
      (handleDeleteCategoryRequest 99 dbTwoCats (some 2)).2.userSettings =
        dbTwoCats.userSettings.map (fun u =>
          if u.current_category_id = some 2 then
            { u with current_category_id := some dId } else u)) := by
  constructor
  · exact (delete_category_safety 99 dbTwoCats 1 (by decide) (by decide)).1 (by decide)
  · obtain ⟨dId, hne, hdef, hfiles, hus, _⟩ :=
      (delete_category_safety 99 dbTwoCats 2 (by decide) (by decide)).2
        (by decide) catPhotos (by decide)
    exact ⟨dId, hne, hdef, hfiles, hus⟩

end Worker
